import Mathlib

/-!
# Verification of the Skill Galaxy graph builder, layout anchors and interaction engine

Shallow embedding of the skill-galaxy subsystem of the portfolio repository:
`src/data/skilltree.ts`, `src/data/algorithms.ts`, `src/data/techtree.ts`,
`src/islands/galaxy/GalaxyInteraction.ts` and the galaxy view module.

Numbers that are TypeScript `number` values used in exact arithmetic are modelled
as `ℚ`; cluster angles/radii that feed trigonometry are modelled as `ℝ`.
JavaScript `Map`/`Set` objects are modelled as lists:
`Map` lookup keeps the last binding for a key (as `Map` construction from an
array of pairs does), `Set`s are modelled by list membership.
The two external JSON data files (skills registry, LeetCode tag statistics)
are inputs of the build and are modelled as parameters.
-/

namespace Galaxy

/-- `NodeType` from techtree.ts, extended with the galaxy-only tags
`'dark' | 'core'` used by skilltree.ts. -/
inductive NodeType where
  | course | project | thesis | internship | publication | repo | skill
  | dark | core
deriving DecidableEq, Repr

/-- `StarClass` from skilltree.ts. -/
inductive StarClass where
  | hypergiant | mainSequence | brownDwarf | ghost
deriving DecidableEq, Repr

/-- `MegastructureType` from skilltree.ts (`null` is modelled by `Option`). -/
inductive Megastructure where
  | dyson | crystal | station | module | diamond
deriving DecidableEq, Repr

/-- `NodeLayer` from skilltree.ts. -/
inductive NodeLayer where
  | core | inner | mid | outer | stargate
deriving DecidableEq, Repr

/-- Edge category of `ConstellationEdge`. -/
inductive EdgeType where
  | prerequisite | related
deriving DecidableEq, Repr

/-- `DarkStar` from skilltree.ts. -/
structure DarkStar where
  id : String
  name : String
  clusterId : String
deriving DecidableEq, Repr

/-- `SkillCluster` from skilltree.ts.  `angle`/`radius` feed polar-to-Cartesian
conversion, so they are real numbers here. -/
structure SkillCluster where
  id : String
  label : String
  color : String
  nebulaColor : String
  angle : ℝ
  radius : ℝ
  trackIds : List String
  darkStars : List DarkStar

/-- `CourseNode` from techtree.ts.  Optional fields are `Option`s. -/
structure CourseNode where
  id : String
  name : String
  code : String
  institution : String
  track : String
  grade : String
  year : Int
  semester : String
  prerequisites : Option (List String) := none
  relatedProjects : Option (List String) := none
  nodeType : Option NodeType := none
deriving DecidableEq, Repr

/-- `ProjectNode` from techtree.ts. -/
structure ProjectNode where
  id : String
  name : String
  relatedCourses : List String
  year : Int
  semester : String
  track : Option String := none
  nodeType : Option NodeType := none
  url : Option String := none
  venue : Option String := none
deriving DecidableEq, Repr

/-- `GalaxyNode` from skilltree.ts. -/
structure GalaxyNode where
  id : String
  name : String
  code : Option String := none
  institution : Option String := none
  track : Option String := none
  grade : Option String := none
  year : Option Int := none
  semester : Option String := none
  nodeType : NodeType
  clusterId : String
  mastery : ℚ
  brightness : ℚ
  radius : ℚ
  x : ℚ
  y : ℚ
  starClass : StarClass
  megastructure : Option Megastructure
  layer : NodeLayer
  isStarGate : Option Bool := none
  prerequisites : Option (List String) := none
  relatedProjects : Option (List String) := none
  relatedCourses : Option (List String) := none
  url : Option String := none
  venue : Option String := none
  isDark : Option Bool := none
deriving DecidableEq, Repr

/-- `ConstellationEdge` from skilltree.ts. -/
structure ConstellationEdge where
  source : String
  target : String
  type : EdgeType
deriving DecidableEq, Repr

/-- Entry of the (external) skills-registry JSON consumed by `buildSkillNodes`. -/
structure SkillRegistryEntry where
  id : String
  name : String
  source : String
  maturityScore : ℚ
  maturityLevel : String
deriving DecidableEq, Repr

/-- `STAR_GATE_IDS` from skilltree.ts (a JS `Set`, modelled by a list). -/
def STAR_GATE_IDS : List String :=
  ["thesis-phd", "pub-specvit-apj", "proj-blade", "pub-charm", "intern-bytedance"]

/-- JavaScript `a || b` on a possibly-undefined string: `undefined` and the
empty string are falsy. -/
def jsOr (a : Option String) (b : String) : String :=
  match a with
  | none => b
  | some s => if s = "" then b else s

/-- `gradeToMastery` from skilltree.ts.  The argument is `grade?: string`;
`if (!grade) return 0.5` also catches the falsy empty string. -/
def gradeToMastery : Option String → ℚ
  | none => 1/2
  | some g =>
    if g = "" then 1/2
    else if g = "A+" then 1
    else if g = "A" then 17/20
    else if g = "A-" then 7/10
    else if g = "B+" then 11/20
    else if g = "B" then 9/20
    else if g = "P" then 1/2
    else 2/5

/-- `gradeToStarClass` from skilltree.ts.  The `'B+' | 'P'` cases and the
`default` case of the `switch` all return `'brown-dwarf'`. -/
def gradeToStarClass (grade : Option String) (nodeType : NodeType) : StarClass :=
  if nodeType = .dark then .ghost
  else if nodeType = .thesis ∨ nodeType = .publication then .hypergiant
  else
    match grade with
    | none => .mainSequence
    | some g =>
      if g = "" then .mainSequence
      else if g = "A+" then .hypergiant
      else if g = "A" ∨ g = "A-" then .mainSequence
      else .brownDwarf

/-- `nodeTypeToMegastructure` from skilltree.ts. -/
def nodeTypeToMegastructure : NodeType → Option Megastructure
  | .thesis => some .dyson
  | .publication => some .crystal
  | .internship => some .station
  | .repo => some .module
  | .project => some .diamond
  | .skill => some .module
  | _ => none

/-- `assignLayer` from skilltree.ts. -/
def assignLayer (nodeType : NodeType) (id : String) : NodeLayer :=
  if nodeType = .core then .core
  else if nodeType = .dark then .outer
  else if id ∈ STAR_GATE_IDS then .stargate
  else if nodeType = .skill then .mid
  else if nodeType = .course then .inner
  else if nodeType = .thesis ∨ nodeType = .publication ∨ nodeType = .internship then .outer
  else .mid

/-- `nodeTypeRadius` from skilltree.ts. -/
def nodeTypeRadius (nodeType : NodeType) (mastery : ℚ) : ℚ :=
  match nodeType with
  | .core => 24
  | .thesis => 14
  | .publication => 10
  | .internship => 11
  | .repo => 7
  | .project => 12
  | .skill => 4 + mastery * 6
  | .dark => 5
  | _ => 6 + mastery * 8

/-- The cluster definitions of skilltree.ts (`export const clusters`), with
`TAU = 2π`. -/
noncomputable def clusters : List SkillCluster :=
  [ { id := "physics", label := "Physics", color := "#4fc3f7", nebulaColor := "#1a7aaa"
      angle := -(2 * Real.pi) / 14, radius := 300, trackIds := ["physics"]
      darkStars :=
        [ ⟨"dark-condensed-matter", "Condensed Matter", "physics"⟩
        , ⟨"dark-nuclear", "Nuclear Physics", "physics"⟩
        , ⟨"dark-astro", "Astrophysics", "physics"⟩
        , ⟨"dark-plasma", "Plasma Physics", "physics"⟩ ] }
  , { id := "math", label := "Math", color := "#ffd54f", nebulaColor := "#a08520"
      angle := (2 * Real.pi) / 14, radius := 300, trackIds := ["math"]
      darkStars :=
        [ ⟨"dark-algebra", "Abstract Algebra", "math"⟩
        , ⟨"dark-analysis", "Real Analysis", "math"⟩
        , ⟨"dark-number-theory", "Number Theory", "math"⟩
        , ⟨"dark-diff-eq", "Differential Equations", "math"⟩ ] }
  , { id := "cs", label := "Algorithm", color := "#66bb6a", nebulaColor := "#1a8035"
      angle := 3 * (2 * Real.pi) / 14, radius := 300, trackIds := ["algorithms"]
      darkStars := [] }
  , { id := "aiml", label := "AI", color := "#ef5350", nebulaColor := "#9a2020"
      angle := 5 * (2 * Real.pi) / 14, radius := 300, trackIds := ["ai", "ml"]
      darkStars :=
        [ ⟨"dark-rl", "Reinforcement Learning", "aiml"⟩
        , ⟨"dark-genai", "Generative AI", "aiml"⟩
        , ⟨"dark-robotics", "Robotics", "aiml"⟩
        , ⟨"dark-cv", "Computer Vision", "aiml"⟩ ] }
  , { id := "engineering", label := "Engineer", color := "#26c6da", nebulaColor := "#1a8888"
      angle := 7 * (2 * Real.pi) / 14, radius := 300, trackIds := ["systems"]
      darkStars :=
        [ ⟨"dark-swe", "Software Engineering", "engineering"⟩
        , ⟨"dark-webdev", "Web Development", "engineering"⟩
        , ⟨"dark-devops", "DevOps", "engineering"⟩
        , ⟨"dark-cloud", "Cloud Computing", "engineering"⟩
        , ⟨"dark-data-eng", "Data Engineering", "engineering"⟩ ] }
  , { id := "data", label := "Finance", color := "#ab47bc", nebulaColor := "#7a2a9a"
      angle := 9 * (2 * Real.pi) / 14, radius := 300, trackIds := []
      darkStars :=
        [ ⟨"dark-viz", "Visualization", "data"⟩
        , ⟨"dark-statmodel", "Statistical Modeling", "data"⟩
        , ⟨"dark-scicomp", "Scientific Computing", "data"⟩ ] }
  , { id := "business", label := "Society", color := "#ff7043", nebulaColor := "#aa5520"
      angle := 11 * (2 * Real.pi) / 14, radius := 300, trackIds := ["business", "social"]
      darkStars :=
        [ ⟨"dark-strategy", "Strategy", "business"⟩
        , ⟨"dark-economics", "Economics", "business"⟩
        , ⟨"dark-finance", "Finance", "business"⟩
        , ⟨"dark-communication", "Communication", "business"⟩
        , ⟨"dark-design", "Design Thinking", "business"⟩ ] } ]

/-- The track-id/cluster-id pairs produced by iterating a cluster list in order
(the loop that fills the module-level `trackToCluster` map in skilltree.ts). -/
def trackClusterPairs (cs : List SkillCluster) : List (String × String) :=
  cs.flatMap (fun c => c.trackIds.map (fun tid => (tid, c.id)))

/-- Lookup in a JS `Map` built by repeated `set` over a pair list: the LAST
binding for a key wins. -/
def mapLookupLast (pairs : List (String × String)) (k : String) : Option String :=
  (pairs.reverse.find? (fun p => p.1 = k)).map (·.2)

/-- The `trackToCluster` pairs of skilltree.ts.  The map is built from the
module-level `clusters` constant; since its `Map` content only depends on
`trackIds`/`id` of each cluster, the pair list is written out literally
(real-number angles play no role). -/
def trackToCluster : List (String × String) :=
  [ ("physics", "physics"), ("math", "math"), ("algorithms", "cs")
  , ("ai", "aiml"), ("ml", "aiml"), ("systems", "engineering")
  , ("business", "business"), ("social", "business") ]

/-- `courseClusterOverrides` from skilltree.ts. -/
def courseClusterOverrides : List (String × String) := [("EN553636", "data")]

/-- Record lookup `courseClusterOverrides[c.id]`. -/
def overrideLookup (k : String) : Option String :=
  (courseClusterOverrides.find? (fun p => p.1 = k)).map (·.2)

/-- The cluster resolution of the course loop of `buildGalaxyNodes`:
`courseClusterOverrides[c.id] || trackToCluster.get(c.track) || 'cs'`. -/
def resolveCourseCluster (c : CourseNode) : String :=
  jsOr (overrideLookup c.id) (jsOr (mapLookupLast trackToCluster c.track) "cs")

/-- The node pushed for one course record by `buildGalaxyNodes`. -/
def courseToNode (c : CourseNode) : GalaxyNode :=
  let clusterId := resolveCourseCluster c
  let mastery := gradeToMastery (some c.grade)
  let nt := c.nodeType.getD .course
  { id := c.id
    name := c.name
    code := some c.code
    institution := some c.institution
    track := some c.track
    grade := some c.grade
    year := some c.year
    semester := some c.semester
    nodeType := nt
    clusterId := clusterId
    mastery := mastery
    brightness := 2/5 + mastery * (3/5)
    radius := nodeTypeRadius nt mastery
    x := 0, y := 0
    starClass := gradeToStarClass (some c.grade) nt
    megastructure := nodeTypeToMegastructure nt
    layer := assignLayer nt c.id
    prerequisites := c.prerequisites
    relatedProjects := c.relatedProjects }

/-- The node pushed for one project-like record by `buildGalaxyNodes`. -/
def projectToNode (p : ProjectNode) : GalaxyNode :=
  let track := jsOr p.track "ml"
  let clusterId := jsOr (mapLookupLast trackToCluster track) "aiml"
  let nt := p.nodeType.getD .project
  let mastery : ℚ :=
    if nt = .thesis then 19/20
    else if nt = .publication then 9/10
    else if nt = .internship then 17/20
    else 3/4
  let isSG := p.id ∈ STAR_GATE_IDS
  { id := p.id
    name := p.name
    track := some track
    year := some p.year
    semester := some p.semester
    nodeType := nt
    clusterId := clusterId
    mastery := mastery
    brightness := 1/2 + mastery * (1/2)
    radius := if isSG then 18 else nodeTypeRadius nt mastery
    x := 0, y := 0
    starClass := if isSG then .hypergiant else gradeToStarClass none nt
    megastructure := nodeTypeToMegastructure nt
    layer := assignLayer nt p.id
    isStarGate := if isSG then some true else none
    relatedCourses := some p.relatedCourses
    url := p.url
    venue := p.venue }

/-- The node pushed for one dark star by `buildGalaxyNodes`
(`clusterId: cluster.id` in the source loop). -/
def darkStarNode (clusterId : String) (ds : DarkStar) : GalaxyNode :=
  { id := ds.id
    name := ds.name
    nodeType := .dark
    clusterId := clusterId
    mastery := 0
    brightness := 3/20
    radius := 5
    x := 0, y := 0
    starClass := .ghost
    megastructure := none
    layer := .outer
    isDark := some true }

/-- `skillMaturityToStarClass` from skilltree.ts. -/
def skillMaturityToStarClass (level : String) : StarClass :=
  if level = "mature" then .hypergiant
  else if level = "growing" then .mainSequence
  else .brownDwarf

/-- `buildSkillNodes` from skilltree.ts, parameterized by the skills-registry
JSON content. -/
def buildSkillNodes (skills : List SkillRegistryEntry) : List GalaxyNode :=
  if skills.isEmpty then []
  else
    skills.map (fun s =>
      { id := "skill-" ++ s.id
        name := s.name
        nodeType := .skill
        clusterId := "engineering"
        mastery := s.maturityScore / 100
        brightness := 3/10 + (s.maturityScore / 100) * (7/10)
        radius := 4 + (s.maturityScore / 100) * 6
        x := 0, y := 0
        starClass := skillMaturityToStarClass s.maturityLevel
        megastructure := some .module
        layer := .mid })

/-- The `CORE` node pushed first by `buildGalaxyNodes`. -/
def coreNode : GalaxyNode :=
  { id := "CORE"
    name := "CORE"
    nodeType := .core
    clusterId := "core"
    mastery := 1
    brightness := 1
    radius := 24
    x := 0, y := 0
    starClass := .hypergiant
    megastructure := none
    layer := .core }

/-- `buildGalaxyNodes` from skilltree.ts.  Pushes, in order: the CORE node,
course nodes, project nodes, dark stars of the cluster parameter, the optional
algorithm nodes, and skill nodes from the registry. -/
def buildGalaxyNodes (courses : List CourseNode) (projectNodes : List ProjectNode)
    (xclusters : List SkillCluster) (algorithmNodes : Option (List GalaxyNode))
    (skillsRegistry : List SkillRegistryEntry) : List GalaxyNode :=
  coreNode ::
    (courses.map courseToNode
      ++ projectNodes.map projectToNode
      ++ xclusters.flatMap (fun cl => cl.darkStars.map (darkStarNode cl.id))
      ++ algorithmNodes.getD []
      ++ buildSkillNodes skillsRegistry)

/-- `buildEdges` from skilltree.ts: course prerequisite edges, then
project→course `related` edges, then the optional algorithm edges. -/
def buildEdges (courses : List CourseNode) (projectNodes : List ProjectNode)
    (algorithmEdges : Option (List ConstellationEdge)) : List ConstellationEdge :=
  courses.flatMap (fun c =>
      (c.prerequisites.getD []).map (fun pre => ⟨pre, c.id, .prerequisite⟩))
    ++ projectNodes.flatMap (fun p =>
      p.relatedCourses.map (fun cid => ⟨cid, p.id, .related⟩))
    ++ algorithmEdges.getD []

/-- `new Map(galaxyNodes.map(n => [n.id, n])).get id` — the LAST node with a
given id wins. -/
def mapGet (nodes : List GalaxyNode) (id : String) : Option GalaxyNode :=
  nodes.reverse.find? (fun n => decide (n.id = id))

/-- `nodeMap.has id`. -/
def mapHas (nodes : List GalaxyNode) (id : String) : Bool :=
  nodes.any (fun n => decide (n.id = id))

/-- The `validEdges` filter of the galaxy view:
`edges.filter(e => nodeMap.has(e.source) && nodeMap.has(e.target))`. -/
def validEdges (edges : List ConstellationEdge) (nodes : List GalaxyNode) :
    List ConstellationEdge :=
  edges.filter (fun e => mapHas nodes e.source && mapHas nodes e.target)

/-! ## algorithms.ts -/

/-- `AlgoTopicDef` from algorithms.ts. -/
structure AlgoTopicDef where
  id : String
  name : String
  tagSlugs : List String
  estimatedTotal : ℚ
  layer : NodeLayer
  sector : String
  prerequisites : List String
deriving DecidableEq, Repr

/-- `ALGO_TOPICS` from algorithms.ts. -/
def ALGO_TOPICS : List AlgoTopicDef :=
  [ ⟨"algo-array-hash", "Array & Hashing", ["array", "hash-table"], 300, .inner, "Core", []⟩
  , ⟨"algo-string", "String", ["string"], 200, .inner, "Core", ["algo-array-hash"]⟩
  , ⟨"algo-sorting", "Sorting", ["sorting"], 120, .inner, "Core", ["algo-array-hash"]⟩
  , ⟨"algo-linked-list", "Linked List", ["linked-list"], 80, .inner, "Linear", ["algo-array-hash"]⟩
  , ⟨"algo-stack-queue", "Stack & Queue", ["stack", "queue", "monotonic-stack"], 120, .inner,
      "Linear", ["algo-array-hash"]⟩
  , ⟨"algo-two-pointers", "Two Pointers", ["two-pointers"], 80, .inner, "Linear",
      ["algo-array-hash"]⟩
  , ⟨"algo-sliding-window", "Sliding Window", ["sliding-window"], 50, .inner, "Linear",
      ["algo-two-pointers"]⟩
  , ⟨"algo-binary-search", "Binary Search", ["binary-search"], 100, .inner, "Linear",
      ["algo-sorting"]⟩
  , ⟨"algo-trees", "Trees", ["tree", "binary-tree", "binary-search-tree"], 150, .mid,
      "Branching", ["algo-stack-queue"]⟩
  , ⟨"algo-heap", "Heap / Priority Queue", ["heap-priority-queue"], 60, .mid, "Branching",
      ["algo-trees"]⟩
  , ⟨"algo-divide-conquer", "Divide & Conquer", ["divide-and-conquer"], 40, .mid, "Branching",
      ["algo-binary-search"]⟩
  , ⟨"algo-graphs", "Graphs", ["graph", "breadth-first-search", "depth-first-search"], 150,
      .mid, "Network", ["algo-trees"]⟩
  , ⟨"algo-trie", "Trie", ["trie"], 30, .mid, "Network", ["algo-trees"]⟩
  , ⟨"algo-union-find", "Union Find", ["union-find"], 40, .mid, "Network", ["algo-graphs"]⟩
  , ⟨"algo-dp", "Dynamic Programming", ["dynamic-programming"], 250, .outer, "Advanced",
      ["algo-divide-conquer"]⟩
  , ⟨"algo-greedy", "Greedy", ["greedy"], 120, .outer, "Advanced", ["algo-sorting"]⟩
  , ⟨"algo-backtracking", "Backtracking", ["backtracking"], 60, .outer, "Advanced",
      ["algo-trees"]⟩
  , ⟨"algo-design", "Design", ["design"], 50, .outer, "Advanced",
      ["algo-stack-queue", "algo-trees"]⟩
  , ⟨"algo-math", "Math & Geometry", ["math", "geometry"], 150, .outer, "Nebula", []⟩
  , ⟨"algo-bit", "Bit Manipulation", ["bit-manipulation"], 60, .outer, "Nebula", []⟩ ]

/-- The tag-statistics map of algorithms.ts (`tagSlug → problemsSolved`), built
from the external LeetCode JSON; modelled as a parameter.  Solved counts are
problem counts, hence `ℕ`. -/
def tagLookup (tagStats : List (String × Nat)) (slug : String) : Option Nat :=
  ((tagStats.reverse.find? (fun p => p.1 = slug)).map (·.2))

/-- `computeSolvedCount` from algorithms.ts: `total += tagStatsMap.get(slug) || 0`. -/
def computeSolvedCount (tagStats : List (String × Nat)) (tagSlugs : List String) : Nat :=
  tagSlugs.foldl (fun total slug => total + (tagLookup tagStats slug).getD 0) 0

/-- `masteryToStarClass` from algorithms.ts. -/
def masteryToStarClass (mastery : ℚ) : StarClass :=
  if mastery < 1/20 then .ghost
  else if mastery < 3/10 then .brownDwarf
  else if mastery < 7/10 then .mainSequence
  else .hypergiant

/-- The node pushed for one topic by `buildAlgorithmNodes`. -/
def algoTopicNode (tagStats : List (String × Nat)) (topic : AlgoTopicDef) : GalaxyNode :=
  let solvedCount := computeSolvedCount tagStats topic.tagSlugs
  let mastery := min 1 ((solvedCount : ℚ) / topic.estimatedTotal)
  let starClass := masteryToStarClass mastery
  let isDark := starClass = .ghost
  let radius := max 4 (min 16 (4 + (solvedCount : ℚ) * (2/25)))
  { id := topic.id
    name := topic.name
    nodeType := if isDark then .dark else .course
    clusterId := "cs"
    mastery := mastery
    brightness := if isDark then 3/20 else 2/5 + mastery * (3/5)
    radius := radius
    x := 0, y := 0
    starClass := starClass
    megastructure := none
    layer := topic.layer
    isDark := some (decide isDark)
    prerequisites := if 0 < topic.prerequisites.length then some topic.prerequisites else none
    track := some "algorithms" }

/-- `buildAlgorithmNodes` from algorithms.ts: one node per topic and one
prerequisite edge per declared topic prerequisite. -/
def buildAlgorithmNodes (tagStats : List (String × Nat)) :
    List GalaxyNode × List ConstellationEdge :=
  ( ALGO_TOPICS.map (algoTopicNode tagStats)
  , ALGO_TOPICS.flatMap (fun topic =>
      topic.prerequisites.map (fun preId => ⟨preId, topic.id, .prerequisite⟩)) )

/-! ## Interaction traversals

`collectPrereqChain` / `collectDownstreamChain` are depth-first traversals with
a visited-set guard and unbounded recursion in the source.  They are embedded
as one generic guarded DFS, `dfsF`, over a successor function, with an explicit
recursion budget `fuel`; the termination theorem shows the result is
independent of the budget once the budget exceeds the number of distinct
reachable ids, which is the denotation of the unbounded source recursion. -/

/-- Generic guarded depth-first traversal.  One step: if the id was visited,
return the visited set unchanged; otherwise mark it visited and fold the
traversal over its successors. -/
def dfsF (succs : String → List String) : Nat → String → List String → List String
  | 0, _, visited => visited
  | fuel + 1, s, visited =>
    if s ∈ visited then visited
    else (succs s).foldl (fun acc t => dfsF succs fuel t acc) (s :: visited)

/-- Successor function of `collectPrereqChain` (both in GalaxyInteraction.ts
and the galaxy view): the node's declared `prerequisites` followed by its
`relatedCourses`; a missing node contributes nothing. -/
def prereqSuccs (nodeMap : List GalaxyNode) (nodeId : String) : List String :=
  match mapGet nodeMap nodeId with
  | none => []
  | some node => node.prerequisites.getD [] ++ node.relatedCourses.getD []

/-- Successor function of `collectDownstreamChain` in GalaxyInteraction.ts:
course records whose prerequisites contain the id, then project records whose
related courses contain the id. -/
def downstreamSuccs (courses : List CourseNode) (projectNodes : List ProjectNode)
    (nodeId : String) : List String :=
  (courses.filter (fun c => decide (nodeId ∈ c.prerequisites.getD []))).map (·.id)
    ++ (projectNodes.filter (fun p => decide (nodeId ∈ p.relatedCourses))).map (·.id)

/-- Successor function of `collectDownstreamChain` in the galaxy view: as the
GalaxyInteraction one, plus the algorithm prerequisite edges whose source is
the id. -/
def downstreamSuccsView (courses : List CourseNode) (projectNodes : List ProjectNode)
    (algoEdges : List ConstellationEdge) (nodeId : String) : List String :=
  downstreamSuccs courses projectNodes nodeId
    ++ (algoEdges.filter (fun e => decide (e.source = nodeId))).map (·.target)

/-- `collectPrereqChain` (GalaxyInteraction.ts and galaxy view are identical). -/
def collectPrereqChain (nodeMap : List GalaxyNode) (fuel : Nat) (nodeId : String)
    (visited : List String) : List String :=
  dfsF (prereqSuccs nodeMap) fuel nodeId visited

/-- `collectDownstreamChain` from GalaxyInteraction.ts. -/
def collectDownstreamChain (courses : List CourseNode) (projectNodes : List ProjectNode)
    (fuel : Nat) (nodeId : String) (visited : List String) : List String :=
  dfsF (downstreamSuccs courses projectNodes) fuel nodeId visited

/-- `collectDownstreamChain` from the galaxy view (additionally traverses the
algorithm prerequisite edges downstream). -/
def collectDownstreamChainView (courses : List CourseNode) (projectNodes : List ProjectNode)
    (algoEdges : List ConstellationEdge) (fuel : Nat) (nodeId : String)
    (visited : List String) : List String :=
  dfsF (downstreamSuccsView courses projectNodes algoEdges) fuel nodeId visited

/-- The project-like node types tested by `collectUpstreamSkills`. -/
def projectLike (nt : NodeType) : Bool :=
  nt ∈ [NodeType.project, .thesis, .publication, .internship, .repo]

/-- `collectUpstreamSkills` from GalaxyInteraction.ts (identical in the galaxy
view): for a project-like or star-gate node, its directly related course ids,
each related course's own prerequisites, and the node's own prerequisites.
The JS `Set` is modelled by a list read up to membership. -/
def collectUpstreamSkills (nodeMap : List GalaxyNode) (nodeId : String) : List String :=
  match mapGet nodeMap nodeId with
  | none => []
  | some node =>
    if ¬ projectLike node.nodeType ∧ ¬ node.isStarGate.getD false then []
    else
      ((node.relatedCourses.getD []).flatMap (fun cid =>
          cid :: (match mapGet nodeMap cid with
                  | some cNode => cNode.prerequisites.getD []
                  | none => [])))
        ++ node.prerequisites.getD []

/-! ## Concrete domain data (techtree.ts) -/

/-- `export const courses` from techtree.ts. -/
def courses : List CourseNode :=
  [ { id := "PHYS221A", name := "Quantum Mechanics I", code := "PHYS 221A"
      institution := "Berkeley", track := "physics", grade := "A", year := 2017
      semester := "Fall" }
  , { id := "PHYS212", name := "Nonequil Statistical Physics", code := "PHYS 212"
      institution := "Berkeley", track := "physics", grade := "A-", year := 2017
      semester := "Fall" }
  , { id := "PHYS221B", name := "Quantum Mechanics II", code := "PHYS 221B"
      institution := "Berkeley", track := "physics", grade := "A+", year := 2017
      semester := "Spring", prerequisites := some ["PHYS221A"] }
  , { id := "PHYS232A", name := "QFT I", code := "PHYS 232A"
      institution := "Berkeley", track := "physics", grade := "A", year := 2018
      semester := "Fall", prerequisites := some ["PHYS221B"] }
  , { id := "PHYS232B", name := "QFT II", code := "PHYS 232B"
      institution := "Berkeley", track := "physics", grade := "A+", year := 2018
      semester := "Spring", prerequisites := some ["PHYS232A"] }
  , { id := "PHYS226", name := "PPP", code := "PHYS 226"
      institution := "Berkeley", track := "physics", grade := "A", year := 2018
      semester := "Spring", prerequisites := some ["PHYS232A"] }
  , { id := "PHYS233A", name := "Standard Model & Beyond", code := "PHYS 233A"
      institution := "Berkeley", track := "physics", grade := "A", year := 2018
      semester := "Spring", prerequisites := some ["PHYS232B"] }
  , { id := "PHYS44500", name := "QFT-3", code := "PHYS 44500"
      institution := "UChicago", track := "physics", grade := "A", year := 2020
      semester := "Fall", prerequisites := some ["PHYS232B"] }
  , { id := "PHYS231", name := "General Relativity", code := "PHYS 231"
      institution := "Berkeley", track := "physics", grade := "A+", year := 2018
      semester := "Fall", prerequisites := some ["PHYS221A"] }
  , { id := "PHYS26400", name := "Spacetime & Black Holes", code := "PHYS 26400"
      institution := "UChicago", track := "physics", grade := "A", year := 2019
      semester := "Fall" }
  , { id := "PHYS36400", name := "General Relativity", code := "PHYS 36400"
      institution := "UChicago", track := "physics", grade := "A", year := 2020
      semester := "Fall", prerequisites := some ["PHYS26400"] }
  , { id := "PHYS46000", name := "Gravitational Waves", code := "PHYS 46000"
      institution := "UChicago", track := "physics", grade := "P", year := 2020
      semester := "Spring", prerequisites := some ["PHYS36400"] }
  , { id := "PSMS39900", name := "MS Thesis/Project Research", code := "PSMS 39900"
      institution := "UChicago", track := "physics", grade := "A", year := 2020
      semester := "Spring", relatedProjects := some ["proj-charm"] }
  , { id := "MATH31700", name := "Topology/Geometry I", code := "MATH 31700"
      institution := "UChicago", track := "math", grade := "A", year := 2019
      semester := "Fall" }
  , { id := "PHYS33000", name := "Math Methods of Physics", code := "PHYS 33000"
      institution := "UChicago", track := "math", grade := "A", year := 2019
      semester := "Fall" }
  , { id := "MATH31800", name := "Topology/Geometry II", code := "MATH 31800"
      institution := "UChicago", track := "math", grade := "A-", year := 2019
      semester := "Spring", prerequisites := some ["MATH31700"] }
  , { id := "MATH39701", name := "Low-Dimensional Topology", code := "MATH 39701"
      institution := "UChicago", track := "math", grade := "A", year := 2020
      semester := "Fall", prerequisites := some ["MATH31800"] }
  , { id := "EN553620", name := "Intro to Probability", code := "EN.553.620"
      institution := "JHU", track := "math", grade := "A+", year := 2021
      semester := "Fall" }
  , { id := "EN553626", name := "Intro to Stochastic Processes", code := "EN.553.626"
      institution := "JHU", track := "math", grade := "A+", year := 2021
      semester := "Spring", prerequisites := some ["EN553620"] }
  , { id := "EN601633", name := "Intro Algorithms", code := "EN.601.633"
      institution := "JHU", track := "algorithms", grade := "A+", year := 2022
      semester := "Fall", relatedProjects := some ["proj-sketch"] }
  , { id := "EN601668", name := "Machine Translation", code := "EN.601.668"
      institution := "JHU", track := "algorithms", grade := "A+", year := 2023
      semester := "Spring" }
  , { id := "EN553636", name := "Intro to Data Science", code := "EN.553.636"
      institution := "JHU", track := "ml", grade := "A+", year := 2021
      semester := "Fall", relatedProjects := some ["proj-cancer"] }
  , { id := "AS171749", name := "ML for Scientists", code := "AS.171.749"
      institution := "JHU", track := "ml", grade := "A", year := 2023
      semester := "Fall", prerequisites := some ["EN553636"]
      relatedProjects := some ["proj-piml", "proj-specvit"] }
  , { id := "EN601682", name := "Deep Learning", code := "EN.601.682"
      institution := "JHU", track := "ml", grade := "A", year := 2023
      semester := "Fall", prerequisites := some ["EN601664"]
      relatedProjects := some ["proj-specvit"] }
  , { id := "AS171801", name := "Independent Research", code := "AS.171.801"
      institution := "JHU", track := "ml", grade := "A+", year := 2024
      semester := "Spring", prerequisites := some ["AS171749", "EN601682"]
      relatedProjects := some ["proj-specvit"] }
  , { id := "EN601664", name := "Artificial Intelligence", code := "EN.601.664"
      institution := "JHU", track := "ai", grade := "A+", year := 2022
      semester := "Fall" }
  , { id := "EN553627", name := "Stochastic Processes Finance I", code := "EN.553.627"
      institution := "JHU", track := "math", grade := "A+", year := 2022
      semester := "Fall", prerequisites := some ["EN553626"] }
  , { id := "EN553628", name := "Stochastic Processes Finance II", code := "EN.553.628"
      institution := "JHU", track := "math", grade := "A+", year := 2022
      semester := "Spring", prerequisites := some ["EN553627"] }
  , { id := "EN553643", name := "Energy Markets & Risk Mgmt", code := "EN.553.643"
      institution := "JHU", track := "math", grade := "A-", year := 2022
      semester := "Spring", prerequisites := some ["EN553627"] } ]

/-- `export const projectNodes` from techtree.ts. -/
def projectNodes : List ProjectNode :=
  [ { id := "proj-charm", name := "Charm Yukawa"
      relatedCourses := ["PHYS232A", "PHYS232B", "PHYS233A", "PSMS39900"]
      year := 2019, semester := "Spring", track := some "physics"
      nodeType := some .project, url := some "https://arxiv.org/abs/1905.09360" }
  , { id := "proj-cancer", name := "Cancer Clustering"
      relatedCourses := ["EN553636"], year := 2020, semester := "Fall"
      track := some "ml", nodeType := some .project
      url := some "https://arxiv.org/abs/2011.06103" }
  , { id := "proj-sketch", name := "Sketch & Scale"
      relatedCourses := ["EN553636", "EN601633"], year := 2023, semester := "Spring"
      track := some "algorithms", nodeType := some .project
      url := some "https://github.com/viskawei/sketch-scale" }
  , { id := "proj-ips", name := "IPS Unlabeled Particle"
      relatedCourses := ["EN553626", "EN553627"], year := 2024, semester := "Fall"
      track := some "math", nodeType := some .project
      url := some "https://viskawei.github.io/ips_unlabeled_learning_web/" }
  , { id := "proj-piml", name := "Physics-Informed ML"
      relatedCourses := ["AS171749", "AS171801"], year := 2024, semester := "Spring"
      track := some "ml", nodeType := some .project
      url := some "https://github.com/viskawei/Physics_Informed_AI" }
  , { id := "proj-specvit", name := "SpecViT"
      relatedCourses := ["EN601682", "AS171749", "AS171801"], year := 2025
      semester := "Fall", track := some "ml", nodeType := some .project
      url := some "https://github.com/viskawei/SpecViT" }
  , { id := "thesis-ba", name := "BA: Charm Quark Yukawa"
      relatedCourses := ["PHYS232B", "PHYS233A"], year := 2019, semester := "Spring"
      track := some "physics", nodeType := some .thesis, venue := some "UC Berkeley" }
  , { id := "thesis-ms", name := "MS: Gravitational Waves"
      relatedCourses := ["PHYS36400", "PHYS46000"], year := 2021, semester := "Spring"
      track := some "physics", nodeType := some .thesis, venue := some "UChicago" }
  , { id := "thesis-phd", name := "PhD: SpecViT (ongoing)"
      relatedCourses := ["AS171801", "EN601682"], year := 2025, semester := "Fall"
      track := some "ml", nodeType := some .thesis, venue := some "JHU" }
  , { id := "intern-jpmorgan", name := "JPMorgan AI/ML Intern"
      relatedCourses := ["EN601682", "AS171749"], year := 2023, semester := "Summer"
      track := some "ai", nodeType := some .internship }
  , { id := "intern-bytedance", name := "ByteDance LLM Intern"
      relatedCourses := ["EN601668", "EN601682"], year := 2024, semester := "Summer"
      track := some "ai", nodeType := some .internship }
  , { id := "pub-charm", name := "PhysRevD: Charm Yukawa"
      relatedCourses := ["PHYS232B", "PHYS233A"], year := 2019, semester := "Fall"
      track := some "physics", nodeType := some .publication
      venue := some "Phys. Rev. D", url := some "https://arxiv.org/abs/1905.09360" }
  , { id := "pub-cancer", name := "IEEE BigData: Sketch & Scale"
      relatedCourses := ["EN553636"], year := 2020, semester := "Fall"
      track := some "ml", nodeType := some .publication
      venue := some "IEEE Big Data", url := some "https://arxiv.org/abs/2011.06103" }
  , { id := "pub-cocoon", name := "COCOON: Symmetric Norm"
      relatedCourses := ["EN601633"], year := 2021, semester := "Fall"
      track := some "algorithms", nodeType := some .publication
      venue := some "COCOON 2021", url := some "https://arxiv.org/abs/2109.01635" }
  , { id := "pub-piml", name := "Appl Math: PIML Stellar"
      relatedCourses := ["AS171749"], year := 2022, semester := "Fall"
      track := some "ml", nodeType := some .publication
      venue := some "Appl. Math. Modeling" }
  , { id := "pub-specvit-aas", name := "AAS: SpecViT Poster"
      relatedCourses := ["AS171801"], year := 2025, semester := "Spring"
      track := some "ml", nodeType := some .publication, venue := some "AAS 245" }
  , { id := "pub-specvit-apj", name := "ApJ: SpecViT (submitted)"
      relatedCourses := ["AS171801", "EN601682"], year := 2025, semester := "Fall"
      track := some "ml", nodeType := some .publication, venue := some "ApJ" }
  , { id := "repo-specvit", name := "viskawei/SpecViT"
      relatedCourses := ["EN601682", "AS171801"], year := 2025, semester := "Spring"
      track := some "ml", nodeType := some .repo
      url := some "https://github.com/viskawei/SpecViT" }
  , { id := "repo-vit", name := "viskawei/VIT"
      relatedCourses := ["EN601682"], year := 2024, semester := "Fall"
      track := some "ml", nodeType := some .repo
      url := some "https://github.com/viskawei/VIT" }
  , { id := "repo-denoiser", name := "viskawei/BlindSpotDenoiser"
      relatedCourses := ["EN601682"], year := 2024, semester := "Spring"
      track := some "ml", nodeType := some .repo
      url := some "https://github.com/viskawei/BlindSpotDenoiser" }
  , { id := "repo-piai", name := "viskawei/Physics_Informed_AI"
      relatedCourses := ["AS171749", "AS171801"], year := 2024, semester := "Spring"
      track := some "ml", nodeType := some .repo
      url := some "https://github.com/viskawei/Physics_Informed_AI" }
  , { id := "proj-blade", name := "Blade Agent"
      relatedCourses := ["EN601664"], year := 2026, semester := "Spring"
      track := some "ai", nodeType := some .project }
  , { id := "proj-giftlive", name := "GiftLive"
      relatedCourses := [], year := 2026, semester := "Spring"
      track := some "social", nodeType := some .project } ]

/-- The concrete galaxy node list of the galaxy view, built as in
`initGalaxyView`:
`buildGalaxyNodes(courses, projectNodes, clusters, algoNodes)` with the
algorithm nodes from `buildAlgorithmNodes`.  The external LeetCode statistics
and skills registry are inputs; the galaxy here is formed over given
`tagStats` and registry contents.  (`buildGalaxyNodes` reads only `id` and
`darkStars` from each cluster, so the real-number angles never enter.) -/
noncomputable def concreteGalaxy (tagStats : List (String × Nat))
    (skillsRegistry : List SkillRegistryEntry) : List GalaxyNode :=
  buildGalaxyNodes courses projectNodes clusters
    (some (buildAlgorithmNodes tagStats).1) skillsRegistry

/-! ## Layout anchors (galaxy view) -/

/-- One cluster anchor of the galaxy view:
`(cos(angle) * radius * scale, sin(angle) * radius * scale)`. -/
noncomputable def clusterAnchor (c : SkillCluster) (scale : ℝ) : ℝ × ℝ :=
  (Real.cos c.angle * c.radius * scale, Real.sin c.angle * c.radius * scale)

/-- The `clusterCenters` map of the galaxy view, keyed by cluster id.  It is
computed from the cluster definitions alone — no node data enters. -/
noncomputable def clusterCenters (cs : List SkillCluster) (scale : ℝ) :
    List (String × (ℝ × ℝ)) :=
  cs.map (fun c => (c.id, clusterAnchor c scale))

/-- The core-pinning step of the galaxy view layout
(`coreNode.x = 0; coreNode.y = 0`). -/
def pinCore (nodes : List GalaxyNode) : List GalaxyNode :=
  nodes.map (fun n => if n.id = "CORE" then { n with x := 0, y := 0 } else n)

/-! ## Reachability and recursion budgets -/

/-- Reachability along a successor function: the reflexive-transitive closure
of "`b` is a successor of `a`". -/
def Reach (succs : String → List String) : String → String → Prop :=
  Relation.ReflTransGen (fun a b => b ∈ succs a)

/-- Number of ids of the universe (plus the start id) not yet visited: the
quantity each guarded recursive call strictly decreases. -/
def dfsMeasure (univ : Finset String) (s : String) (v : List String) : Nat :=
  ((insert s univ).filter (fun x => x ∉ v)).card

/-- All ids a prerequisite-chain traversal can ever be called on: ids occurring
in some node's `prerequisites` or `relatedCourses` list. -/
def prereqUniv (nodeMap : List GalaxyNode) : Finset String :=
  (nodeMap.flatMap (fun n => n.prerequisites.getD [] ++ n.relatedCourses.getD [])).toFinset

/-- All ids a downstream traversal (module version) can ever be called on. -/
def downstreamUniv (courses : List CourseNode) (projectNodes : List ProjectNode) :
    Finset String :=
  (courses.map (·.id) ++ projectNodes.map (·.id)).toFinset

/-- All ids a downstream traversal (galaxy-view version) can ever be called on. -/
def downstreamUnivView (courses : List CourseNode) (projectNodes : List ProjectNode)
    (algoEdges : List ConstellationEdge) : Finset String :=
  (courses.map (·.id) ++ projectNodes.map (·.id) ++ algoEdges.map (·.target)).toFinset

/-! ## Small example data (spec §8 example scenario) -/

/-- The spec's example course `C1` (`prerequisites: []`, grade `A+`). -/
def exampleCourse : CourseNode :=
  { id := "C1", name := "Course One", code := "C1", institution := "JHU"
    track := "ml", grade := "A+", year := 2024, semester := "Fall"
    prerequisites := some [] }

/-- The spec's example project `P1` (`relatedCourses: ["C1"]`). -/
def exampleProject : ProjectNode :=
  { id := "P1", name := "Project One", relatedCourses := ["C1"]
    year := 2024, semester := "Fall" }

/-- The galaxy built from the example records alone. -/
def exampleGalaxy : List GalaxyNode :=
  buildGalaxyNodes [exampleCourse] [exampleProject] [] none []

/-- A course with a dangling prerequisite reference (no record named `GHOST`),
exercising the silent-drop policy of the valid-edge filter. -/
def danglingCourse : CourseNode :=
  { id := "X", name := "Course X", code := "X", institution := "JHU"
    track := "ml", grade := "A", year := 2024, semester := "Fall"
    prerequisites := some ["GHOST"] }

/-- A cluster at angle `0` (spec §8 opposite-anchors example). -/
noncomputable def wClusterA : SkillCluster :=
  { id := "a", label := "A", color := "", nebulaColor := ""
    angle := 0, radius := 300, trackIds := [], darkStars := [] }

/-- A cluster at angle `π` (spec §8 opposite-anchors example). -/
noncomputable def wClusterB : SkillCluster :=
  { id := "b", label := "B", color := "", nebulaColor := ""
    angle := Real.pi, radius := 300, trackIds := [], darkStars := [] }

/-! # Theorems

## Guarded depth-first traversal: generic lemmas -/

/-- Unfolding equation of `dfsF` at positive fuel. -/
theorem dfsF_succ (succs : String → List String) (n : Nat) (s : String) (v : List String) :
    dfsF succs (n + 1) s v
      = if s ∈ v then v
        else (succs s).foldl (fun acc t => dfsF succs n t acc) (s :: v) := by
  rfl

/-- A fold of accumulator-growing functions grows the accumulator. -/
theorem foldl_subset_inv {g : List String → String → List String}
    (hg : ∀ acc a, acc ⊆ g acc a) :
    ∀ (l acc : List String), acc ⊆ List.foldl g acc l := by
  intro l
  induction l with
  | nil => intro acc; simp
  | cons t ts ih =>
    intro acc
    rw [List.foldl_cons]
    exact List.Subset.trans (hg acc t) (ih (g acc t))

/-- The traversal only grows the visited set. -/
theorem dfsF_subset (succs : String → List String) :
    ∀ (fuel : Nat) (s : String) (v : List String), v ⊆ dfsF succs fuel s v := by
  intro fuel
  induction fuel with
  | zero => intro s v; simp [dfsF]
  | succ n ih =>
    intro s v
    rw [dfsF_succ]
    split
    · exact fun x hx => hx
    · exact List.Subset.trans (List.subset_cons_self s v)
        (foldl_subset_inv (fun acc a => ih a acc) (succs s) (s :: v))

/-- With positive fuel the start id is always in the result. -/
theorem dfsF_start (succs : String → List String) (n : Nat) (s : String) (v : List String) :
    s ∈ dfsF succs (n + 1) s v := by
  rw [dfsF_succ]
  split
  · assumption
  · exact foldl_subset_inv (fun acc a => dfsF_subset succs n a acc) (succs s) (s :: v)
      (List.mem_cons_self s v)

/-- Soundness: everything the traversal collects was already visited or is
reachable from the start id. -/
theorem dfsF_sound (succs : String → List String) :
    ∀ (fuel : Nat) (s : String) (v : List String) (x : String),
      x ∈ dfsF succs fuel s v → x ∈ v ∨ Reach succs s x := by
  intro fuel
  induction fuel with
  | zero => intro s v x hx; exact Or.inl hx
  | succ n ih =>
    intro s v x hx
    rw [dfsF_succ] at hx
    split at hx
    · exact Or.inl hx
    · have key : ∀ (l : List String), (∀ t ∈ l, t ∈ succs s) →
          ∀ (acc : List String), (∀ y ∈ acc, y ∈ v ∨ Reach succs s y) →
          ∀ z ∈ List.foldl (fun acc t => dfsF succs n t acc) acc l,
            z ∈ v ∨ Reach succs s z := by
        intro l
        induction l with
        | nil => intro _ acc hacc z hz; exact hacc z hz
        | cons t ts ihl =>
          intro hl acc hacc z hz
          rw [List.foldl_cons] at hz
          refine ihl (fun u hu => hl u (List.mem_cons_of_mem _ hu)) _ ?_ z hz
          intro y hy
          rcases ih t acc y hy with hy' | hy'
          · exact hacc y hy'
          · exact Or.inr (Relation.ReflTransGen.head (hl t (List.mem_cons_self _ _)) hy')
      refine key (succs s) (fun t ht => ht) (s :: v) ?_ x hx
      intro y hy
      rcases List.mem_cons.mp hy with rfl | hy'
      · exact Or.inr Relation.ReflTransGen.refl
      · exact Or.inl hy'

/-- An unvisited start id makes the measure positive. -/
theorem dfsMeasure_pos (univ : Finset String) (s : String) (v : List String)
    (hs : s ∉ v) : 0 < dfsMeasure univ s v := by
  apply Finset.card_pos.mpr
  exact ⟨s, Finset.mem_filter.mpr ⟨Finset.mem_insert_self s univ, by simpa using hs⟩⟩

/-- Entering an unvisited node strictly decreases the measure for every
successor call. -/
theorem dfsMeasure_lt (univ : Finset String) {s t : String} {v acc : List String}
    (hs : s ∉ v) (ht : t ∈ univ) (hacc : ∀ x ∈ s :: v, x ∈ acc) :
    dfsMeasure univ t acc < dfsMeasure univ s v := by
  have h1 : insert t univ = univ := Finset.insert_eq_self.mpr ht
  unfold dfsMeasure
  rw [h1]
  have hsub : univ.filter (fun x => x ∉ acc) ⊆ (insert s univ).filter (fun x => x ∉ v) := by
    intro x hx
    obtain ⟨hx1, hx2⟩ := Finset.mem_filter.mp hx
    refine Finset.mem_filter.mpr ⟨Finset.mem_insert_of_mem hx1, ?_⟩
    exact fun hv => hx2 (hacc x (List.mem_cons_of_mem _ hv))
  refine Finset.card_lt_card ((Finset.ssubset_iff_of_subset hsub).mpr ?_)
  refine ⟨s, Finset.mem_filter.mpr ⟨Finset.mem_insert_self s univ, hs⟩, ?_⟩
  intro hmem
  exact (Finset.mem_filter.mp hmem).2 (hacc s (List.mem_cons_self _ _))

/-- Termination/stabilization: once the recursion budget exceeds the number of
unvisited ids of the (finite) universe, the traversal's result no longer
depends on the budget — the denotation of the source's unbounded recursion. -/
theorem dfsF_stable (succs : String → List String) (univ : Finset String)
    (hsucc : ∀ a b, b ∈ succs a → b ∈ univ) :
    ∀ (k fuel₁ fuel₂ : Nat) (s : String) (v : List String),
      dfsMeasure univ s v ≤ k → dfsMeasure univ s v < fuel₁ → dfsMeasure univ s v < fuel₂ →
      dfsF succs fuel₁ s v = dfsF succs fuel₂ s v := by
  intro k
  induction k with
  | zero =>
    intro fuel₁ fuel₂ s v hk h1 h2
    have hs : s ∈ v := by
      by_contra hsc
      have := dfsMeasure_pos univ s v hsc
      omega
    obtain ⟨a, rfl⟩ : ∃ a, fuel₁ = a + 1 := ⟨fuel₁ - 1, by omega⟩
    obtain ⟨b, rfl⟩ : ∃ b, fuel₂ = b + 1 := ⟨fuel₂ - 1, by omega⟩
    rw [dfsF_succ, dfsF_succ, if_pos hs, if_pos hs]
  | succ k ih =>
    intro fuel₁ fuel₂ s v hk h1 h2
    obtain ⟨a, rfl⟩ : ∃ a, fuel₁ = a + 1 := ⟨fuel₁ - 1, by omega⟩
    obtain ⟨b, rfl⟩ : ∃ b, fuel₂ = b + 1 := ⟨fuel₂ - 1, by omega⟩
    rw [dfsF_succ, dfsF_succ]
    by_cases hs : s ∈ v
    · rw [if_pos hs, if_pos hs]
    · rw [if_neg hs, if_neg hs]
      have hfold : ∀ (l : List String), (∀ t ∈ l, t ∈ univ) →
          ∀ (acc : List String), (∀ x ∈ s :: v, x ∈ acc) →
          List.foldl (fun acc t => dfsF succs a t acc) acc l
            = List.foldl (fun acc t => dfsF succs b t acc) acc l := by
        intro l
        induction l with
        | nil => intro _ acc _; simp
        | cons t ts ihl =>
          intro hl acc hacc
          rw [List.foldl_cons, List.foldl_cons]
          have hm : dfsMeasure univ t acc < dfsMeasure univ s v :=
            dfsMeasure_lt univ hs (hl t (List.mem_cons_self _ _)) hacc
          have heq : dfsF succs a t acc = dfsF succs b t acc := by
            apply ih a b t acc <;> omega
          rw [heq]
          apply ihl (fun u hu => hl u (List.mem_cons_of_mem _ hu))
          intro x hx
          exact dfsF_subset succs b t acc (hacc x hx)
      exact hfold (succs s) (fun t ht => hsucc s t ht) (s :: v) (fun x hx => hx)

/-- Closure: with sufficient fuel, every id the traversal newly visits has all
its successors in the result. -/
theorem dfsF_closed (succs : String → List String) (univ : Finset String)
    (hsucc : ∀ a b, b ∈ succs a → b ∈ univ) :
    ∀ (k fuel : Nat) (s : String) (v : List String),
      dfsMeasure univ s v ≤ k → dfsMeasure univ s v < fuel →
      ∀ y ∈ dfsF succs fuel s v, y ∉ v →
      ∀ t ∈ succs y, t ∈ dfsF succs fuel s v := by
  intro k
  induction k with
  | zero =>
    intro fuel s v hk hf y hy hyv t ht
    have hs : s ∈ v := by
      by_contra hsc
      have := dfsMeasure_pos univ s v hsc
      omega
    obtain ⟨a, rfl⟩ : ∃ a, fuel = a + 1 := ⟨fuel - 1, by omega⟩
    rw [dfsF_succ, if_pos hs] at hy
    exact absurd hy hyv
  | succ k ih =>
    intro fuel s v hk hf y hy hyv t ht
    obtain ⟨a, rfl⟩ : ∃ a, fuel = a + 1 := ⟨fuel - 1, by omega⟩
    rw [dfsF_succ] at hy ⊢
    by_cases hs : s ∈ v
    · rw [if_pos hs] at hy
      exact absurd hy hyv
    · rw [if_neg hs] at hy ⊢
      have hmpos : 0 < dfsMeasure univ s v := dfsMeasure_pos univ s v hs
      -- invariant: every visited id outside `v` is the start or has all its
      -- successors in the accumulator
      have claimA : ∀ (l : List String), (∀ u ∈ l, u ∈ univ) →
          ∀ (acc : List String), (∀ x ∈ s :: v, x ∈ acc) →
          (∀ z ∈ acc, z ∉ v → z = s ∨ ∀ u ∈ succs z, u ∈ acc) →
          ∀ z ∈ List.foldl (fun acc t => dfsF succs a t acc) acc l, z ∉ v →
            z = s ∨ ∀ u ∈ succs z, u ∈ List.foldl (fun acc t => dfsF succs a t acc) acc l := by
        intro l
        induction l with
        | nil => intro _ acc _ hP z hz hzv; exact hP z hz hzv
        | cons t' ts ihl =>
          intro hl acc hacc hP
          rw [List.foldl_cons]
          have hm : dfsMeasure univ t' acc < dfsMeasure univ s v :=
            dfsMeasure_lt univ hs (hl t' (List.mem_cons_self _ _)) hacc
          refine ihl (fun u hu => hl u (List.mem_cons_of_mem _ hu)) _ ?_ ?_
          · intro x hx
            exact dfsF_subset succs a t' acc (hacc x hx)
          · intro z hz hzv
            by_cases hzacc : z ∈ acc
            · rcases hP z hzacc hzv with hzs | hcl
              · exact Or.inl hzs
              · exact Or.inr (fun u hu => dfsF_subset succs a t' acc (hcl u hu))
            · refine Or.inr (fun u hu => ?_)
              exact ih a t' acc (by omega) (by omega) z hz hzacc u hu
      have claimB : ∀ (l acc : List String),
          ∀ u ∈ l, u ∈ List.foldl (fun acc t => dfsF succs a t acc) acc l := by
        intro l
        induction l with
        | nil => intro acc u hu; exact absurd hu (List.not_mem_nil u)
        | cons t' ts ihl =>
          intro acc u hu
          rw [List.foldl_cons]
          rcases List.mem_cons.mp hu with rfl | hu'
          · obtain ⟨a', rfl⟩ : ∃ a', a = a' + 1 := ⟨a - 1, by omega⟩
            exact foldl_subset_inv (fun acc x => dfsF_subset succs _ x acc) ts _
              (dfsF_start succs a' u acc)
          · exact ihl _ u hu'
      have hPfin := claimA (succs s) (fun u hu => hsucc s u hu) (s :: v)
        (fun x hx => hx)
        (fun z hz hzv => Or.inl ((List.mem_cons.mp hz).resolve_right (fun h => hzv h)))
        y hy hyv
      rcases hPfin with rfl | hcl
      · exact claimB (succs y) (y :: v) t ht
      · exact hcl t ht

/-- Completeness: with sufficient fuel, a fresh traversal visits every id
reachable from the start. -/
theorem dfsF_complete (succs : String → List String) (univ : Finset String)
    (hsucc : ∀ a b, b ∈ succs a → b ∈ univ) (s x : String) (h : Reach succs s x) :
    ∀ fuel, dfsMeasure univ s [] < fuel → x ∈ dfsF succs fuel s [] := by
  induction h with
  | refl =>
    intro fuel hf
    have : 0 < dfsMeasure univ s [] := dfsMeasure_pos univ s [] (List.not_mem_nil s)
    obtain ⟨a, rfl⟩ : ∃ a, fuel = a + 1 := ⟨fuel - 1, by omega⟩
    exact dfsF_start succs a s []
  | tail hab hbc ih =>
    intro fuel hf
    exact dfsF_closed succs univ hsucc (dfsMeasure univ s []) fuel s [] le_rfl hf
      _ (ih fuel hf) (List.not_mem_nil _) _ hbc

/-- Characterization of a fresh traversal with sufficient fuel: its result is
exactly the set of ids reachable from the start. -/
theorem dfsF_mem_iff (succs : String → List String) (univ : Finset String)
    (hsucc : ∀ a b, b ∈ succs a → b ∈ univ) (fuel : Nat) (s x : String)
    (hf : dfsMeasure univ s [] < fuel) :
    x ∈ dfsF succs fuel s [] ↔ Reach succs s x := by
  constructor
  · intro h
    exact (dfsF_sound succs fuel s [] x h).resolve_left (List.not_mem_nil x)
  · intro h
    exact dfsF_complete succs univ hsucc s x h fuel hf

/-- Reversing a reachability path along inverse successor functions. -/
theorem reach_rev {succs₁ succs₂ : String → List String}
    (hinv : ∀ a b, b ∈ succs₁ a → a ∈ succs₂ b) {s x : String}
    (h : Reach succs₁ s x) : Reach succs₂ x s := by
  induction h with
  | refl => exact Relation.ReflTransGen.refl
  | tail hab hbc ih => exact Relation.ReflTransGen.head (hinv _ _ hbc) ih

/-- Reachability is monotone in the successor function. -/
theorem reach_mono {succs₁ succs₂ : String → List String}
    (hsub : ∀ a, succs₁ a ⊆ succs₂ a) {s x : String}
    (h : Reach succs₁ s x) : Reach succs₂ s x :=
  Relation.ReflTransGen.mono (fun a _ hb => hsub a hb) h

/-- A node found by `mapGet` is a member of the node list and has the queried
id. -/
theorem mapGet_mem {nodes : List GalaxyNode} {id : String} {n : GalaxyNode}
    (h : mapGet nodes id = some n) : n ∈ nodes ∧ n.id = id := by
  unfold mapGet at h
  refine ⟨List.mem_reverse.mp (List.mem_of_find?_eq_some h), ?_⟩
  have := List.find?_some h
  simpa using this

/-- The prerequisite-chain successor function stays in its universe. -/
theorem prereqSuccs_mem_univ (nodeMap : List GalaxyNode) :
    ∀ a b, b ∈ prereqSuccs nodeMap a → b ∈ prereqUniv nodeMap := by
  intro a b hb
  unfold prereqSuccs at hb
  split at hb
  · exact absurd hb (List.not_mem_nil b)
  · next node heq =>
    unfold prereqUniv
    rw [List.mem_toFinset]
    exact List.mem_flatMap.mpr ⟨node, (mapGet_mem heq).1, hb⟩

/-- The module downstream successor function stays in its universe. -/
theorem downstreamSuccs_mem_univ (courses : List CourseNode)
    (projectNodes : List ProjectNode) :
    ∀ a b, b ∈ downstreamSuccs courses projectNodes a →
      b ∈ downstreamUniv courses projectNodes := by
  intro a b hb
  unfold downstreamSuccs at hb
  unfold downstreamUniv
  rw [List.mem_toFinset, List.mem_append]
  rcases List.mem_append.mp hb with hb' | hb'
  · obtain ⟨c, hc, rfl⟩ := List.mem_map.mp hb'
    exact Or.inl (List.mem_map.mpr ⟨c, (List.mem_filter.mp hc).1, rfl⟩)
  · obtain ⟨p, hp, rfl⟩ := List.mem_map.mp hb'
    exact Or.inr (List.mem_map.mpr ⟨p, (List.mem_filter.mp hp).1, rfl⟩)

/-- The galaxy-view downstream successor function stays in its universe. -/
theorem downstreamSuccsView_mem_univ (courses : List CourseNode)
    (projectNodes : List ProjectNode) (algoEdges : List ConstellationEdge) :
    ∀ a b, b ∈ downstreamSuccsView courses projectNodes algoEdges a →
      b ∈ downstreamUnivView courses projectNodes algoEdges := by
  intro a b hb
  unfold downstreamSuccsView at hb
  unfold downstreamUnivView
  rw [List.mem_toFinset, List.mem_append]
  rcases List.mem_append.mp hb with hb' | hb'
  · have := downstreamSuccs_mem_univ courses projectNodes a b hb'
    unfold downstreamUniv at this
    rw [List.mem_toFinset] at this
    exact Or.inl this
  · obtain ⟨e, he, rfl⟩ := List.mem_map.mp hb'
    exact Or.inr (List.mem_map.mpr ⟨e, (List.mem_filter.mp he).1, rfl⟩)

/-! ## Small helper lemmas -/

/-- `nodeMap.has id` means some node of the list carries the id. -/
theorem mapHas_iff {nodes : List GalaxyNode} {id : String} :
    mapHas nodes id = true ↔ ∃ n ∈ nodes, n.id = id := by
  unfold mapHas
  rw [List.any_eq_true]
  constructor
  · rintro ⟨n, hn, hid⟩
    exact ⟨n, hn, of_decide_eq_true hid⟩
  · rintro ⟨n, hn, hid⟩
    exact ⟨n, hn, decide_eq_true hid⟩

/-- If no tag slug of a list is present in the statistics, the aggregated
solved count is zero. -/
theorem computeSolvedCount_eq_zero {tagStats : List (String × Nat)}
    {tagSlugs : List String} (h : ∀ slug ∈ tagSlugs, tagLookup tagStats slug = none) :
    computeSolvedCount tagStats tagSlugs = 0 := by
  unfold computeSolvedCount
  have aux : ∀ (l : List String) (n : Nat), (∀ slug ∈ l, tagLookup tagStats slug = none) →
      l.foldl (fun total slug => total + (tagLookup tagStats slug).getD 0) n = n := by
    intro l
    induction l with
    | nil => intro n _; rfl
    | cons a l ih =>
      intro n hl
      rw [List.foldl_cons, hl a (List.mem_cons_self _ _)]
      exact ih n (fun slug hs => hl slug (List.mem_cons_of_mem _ hs))
  exact aux tagSlugs 0 h

/-- Every authored algorithm topic has a positive estimated total. -/
theorem algoTopics_total_pos : ∀ t ∈ ALGO_TOPICS, 0 < t.estimatedTotal := by
  decide

/-! ## C4 — grade classification -/

/-- C4.  `gradeToMastery` is total with values in `[0,1]`: the fixed lookup
table maps `A+ ↦ 1`, `A ↦ 0.85`, `A- ↦ 0.7`, `B+ ↦ 0.55`, `B ↦ 0.45`,
`P ↦ 0.5`; a missing grade yields `0.5` and an unrecognized grade the
conservative default `0.4`, never an error.  A course record graded `A+`
(with no node-type override) produces a galaxy node with mastery `1` and the
top visual tier `hypergiant`, and that node is in the node builder's output. -/
theorem grade_classification :
    (∀ g : Option String, 0 ≤ gradeToMastery g ∧ gradeToMastery g ≤ 1)
    ∧ (gradeToMastery (some "A+") = 1 ∧ gradeToMastery (some "A") = 17/20
        ∧ gradeToMastery (some "A-") = 7/10 ∧ gradeToMastery (some "B+") = 11/20
        ∧ gradeToMastery (some "B") = 9/20 ∧ gradeToMastery (some "P") = 1/2
        ∧ gradeToMastery none = 1/2)
    ∧ (∀ g : String, g ∉ ["", "A+", "A", "A-", "B+", "B", "P"] →
        gradeToMastery (some g) = 2/5)
    ∧ (∀ c : CourseNode, c.grade = "A+" → c.nodeType = none →
        (courseToNode c).mastery = 1
        ∧ (courseToNode c).starClass = .hypergiant
        ∧ ∀ (cs : List CourseNode) (ps : List ProjectNode) (xcl : List SkillCluster)
            (alg : Option (List GalaxyNode)) (sk : List SkillRegistryEntry),
            c ∈ cs → courseToNode c ∈ buildGalaxyNodes cs ps xcl alg sk) := by
  refine ⟨?_, ?_, ?_, ?_⟩
  · intro g
    rcases g with _ | g
    · exact ⟨by norm_num [gradeToMastery], by norm_num [gradeToMastery]⟩
    · simp only [gradeToMastery]
      split_ifs <;> constructor <;> norm_num
  · refine ⟨rfl, rfl, rfl, rfl, rfl, rfl, rfl⟩
  · intro g hg
    simp only [List.mem_cons, List.not_mem_nil, or_false, not_or] at hg
    obtain ⟨h1, h2, h3, h4, h5, h6, h7⟩ := hg
    show (if g = "" then (1 : ℚ)/2
          else if g = "A+" then 1
          else if g = "A" then 17/20
          else if g = "A-" then 7/10
          else if g = "B+" then 11/20
          else if g = "B" then 9/20
          else if g = "P" then 1/2
          else 2/5) = 2/5
    rw [if_neg h1, if_neg h2, if_neg h3, if_neg h4, if_neg h5, if_neg h6, if_neg h7]
  · intro c hgrade hnt
    refine ⟨?_, ?_, ?_⟩
    · simp [courseToNode, hgrade, gradeToMastery]
    · simp [courseToNode, hgrade, hnt, gradeToStarClass]
    · intro cs ps xcl alg sk hc
      unfold buildGalaxyNodes
      exact List.mem_cons_of_mem _ (List.mem_append.mpr (Or.inl
        (List.mem_append.mpr (Or.inl (List.mem_append.mpr (Or.inl
          (List.mem_append.mpr (Or.inl (List.mem_map.mpr ⟨c, hc, rfl⟩)))))))))

/-- C4 witness: the table value for `A+`, the default for `"Z"`, and the spec's
example course `C1` (grade `A+`) yielding a mastery-`1` hypergiant node of the
example galaxy. -/
theorem grade_classification_witness :
    gradeToMastery (some "A+") = 1
    ∧ gradeToMastery (some "Z") = 2/5
    ∧ (0 ≤ gradeToMastery (some "Z") ∧ gradeToMastery (some "Z") ≤ 1)
    ∧ (courseToNode exampleCourse).mastery = 1
    ∧ (courseToNode exampleCourse).starClass = .hypergiant
    ∧ courseToNode exampleCourse ∈ exampleGalaxy :=
  ⟨grade_classification.2.1.1,
   grade_classification.2.2.1 "Z" (by decide),
   grade_classification.1 (some "Z"),
   (grade_classification.2.2.2 exampleCourse rfl rfl).1,
   (grade_classification.2.2.2 exampleCourse rfl rfl).2.1,
   (grade_classification.2.2.2 exampleCourse rfl rfl).2.2 [exampleCourse]
     [exampleProject] [] none [] (List.mem_cons_self _ _)⟩

/-! ## C5 — cluster resolution precedence -/

/-- C5.  The owning cluster of a course node follows the precedence
override-table entry, else track→cluster lookup, else the default `'cs'`
(with JavaScript `||` falsiness on the empty string made explicit); the
assigned cluster id is exactly `resolveCourseCluster`, a single value. -/
theorem cluster_resolution_precedence :
    ∀ c : CourseNode,
      (courseToNode c).clusterId = resolveCourseCluster c
      ∧ (∀ v, overrideLookup c.id = some v → v ≠ "" → (courseToNode c).clusterId = v)
      ∧ (overrideLookup c.id = none →
          (∀ w, mapLookupLast trackToCluster c.track = some w → w ≠ "" →
            (courseToNode c).clusterId = w)
          ∧ (mapLookupLast trackToCluster c.track = none →
            (courseToNode c).clusterId = "cs")) := by
  intro c
  refine ⟨rfl, ?_, ?_⟩
  · intro v hv hne
    simp [courseToNode, resolveCourseCluster, hv, jsOr, hne]
  · intro hnone
    constructor
    · intro w hw hne
      simp [courseToNode, resolveCourseCluster, hnone, hw, jsOr, hne]
    · intro hnone'
      simp [courseToNode, resolveCourseCluster, hnone, hnone', jsOr]

/-- C5 witness: the override table routes `EN553636` (track `ml`, which maps to
`aiml`) to cluster `data` instead. -/
theorem cluster_resolution_precedence_witness :
    (courseToNode { id := "EN553636", name := "Intro to Data Science"
                    code := "EN.553.636", institution := "JHU", track := "ml"
                    grade := "A+", year := 2021, semester := "Fall"
                    relatedProjects := some ["proj-cancer"] }).clusterId = "data" :=
  (cluster_resolution_precedence _).2.1 "data" (by decide) (by decide)

/-! ## C7 — algorithm-topic mastery -/

/-- C7.  For every authored algorithm topic and any tag statistics,
`buildAlgorithmNodes` produces (total function, no failure) a node whose
mastery is the solved/estimated ratio clamped to `[0,1]`; statistics covering
none of the topic's slugs give solved count `0` and mastery `0`; mastery below
the `0.05` threshold makes the node a `ghost` flagged dark. -/
theorem algorithm_topic_mastery :
    ∀ (tagStats : List (String × Nat)) (topic : AlgoTopicDef), topic ∈ ALGO_TOPICS →
      (algoTopicNode tagStats topic).mastery
          = min 1 ((computeSolvedCount tagStats topic.tagSlugs : ℚ) / topic.estimatedTotal)
      ∧ 0 ≤ (algoTopicNode tagStats topic).mastery
      ∧ (algoTopicNode tagStats topic).mastery ≤ 1
      ∧ ((∀ slug ∈ topic.tagSlugs, tagLookup tagStats slug = none) →
          computeSolvedCount tagStats topic.tagSlugs = 0
          ∧ (algoTopicNode tagStats topic).mastery = 0)
      ∧ ((algoTopicNode tagStats topic).mastery < 1/20 →
          (algoTopicNode tagStats topic).starClass = .ghost
          ∧ (algoTopicNode tagStats topic).isDark = some true)
      ∧ algoTopicNode tagStats topic ∈ (buildAlgorithmNodes tagStats).1 := by
  intro tagStats topic hmem
  have htot : 0 < topic.estimatedTotal := algoTopics_total_pos topic hmem
  have hm : (algoTopicNode tagStats topic).mastery
      = min 1 ((computeSolvedCount tagStats topic.tagSlugs : ℚ) / topic.estimatedTotal) := rfl
  refine ⟨hm, ?_, ?_, ?_, ?_, ?_⟩
  · rw [hm]
    exact le_min zero_le_one (div_nonneg (Nat.cast_nonneg _) htot.le)
  · rw [hm]
    exact min_le_left _ _
  · intro hnone
    have h0 := computeSolvedCount_eq_zero hnone
    refine ⟨h0, ?_⟩
    rw [hm, h0]
    norm_num
  · intro hlt
    have hsc : (algoTopicNode tagStats topic).starClass
        = masteryToStarClass (algoTopicNode tagStats topic).mastery := rfl
    have hghost : masteryToStarClass (algoTopicNode tagStats topic).mastery = .ghost := by
      unfold masteryToStarClass
      rw [if_pos hlt]
    refine ⟨hsc.trans hghost, ?_⟩
    show some (decide (masteryToStarClass
      (min 1 ((computeSolvedCount tagStats topic.tagSlugs : ℚ) / topic.estimatedTotal))
        = .ghost)) = some true
    rw [show (min 1 ((computeSolvedCount tagStats topic.tagSlugs : ℚ) / topic.estimatedTotal))
        = (algoTopicNode tagStats topic).mastery from rfl, hghost]
    simp
  · exact List.mem_map.mpr ⟨topic, hmem, rfl⟩

/-- C7 witness: with empty statistics the first topic has solved count `0`,
mastery `0`, class `ghost`, dark flag set, and its node is emitted. -/
theorem algorithm_topic_mastery_witness :
    computeSolvedCount [] ["array", "hash-table"] = 0
    ∧ (algoTopicNode []
        ⟨"algo-array-hash", "Array & Hashing", ["array", "hash-table"], 300, .inner, "Core", []⟩).mastery = 0
    ∧ (algoTopicNode []
        ⟨"algo-array-hash", "Array & Hashing", ["array", "hash-table"], 300, .inner, "Core", []⟩).starClass = .ghost
    ∧ (algoTopicNode []
        ⟨"algo-array-hash", "Array & Hashing", ["array", "hash-table"], 300, .inner, "Core", []⟩).isDark = some true
    ∧ algoTopicNode []
        ⟨"algo-array-hash", "Array & Hashing", ["array", "hash-table"], 300, .inner, "Core", []⟩
        ∈ (buildAlgorithmNodes []).1 := by
  have h := algorithm_topic_mastery []
    ⟨"algo-array-hash", "Array & Hashing", ["array", "hash-table"], 300, .inner, "Core", []⟩
    (by decide)
  obtain ⟨-, -, -, hzero, hdark, hmem⟩ := h
  obtain ⟨h0, hm0⟩ := hzero (by decide)
  refine ⟨h0, hm0, ?_, ?_, hmem⟩
  · exact (hdark (by rw [hm0]; norm_num)).1
  · exact (hdark (by rw [hm0]; norm_num)).2

/-! ## C6 — anchor fixity -/

/-- C6.  Each cluster's anchor is `(cos θ, sin θ) · r · scale`, entered in the
center table straight from the cluster definition (no node data is read); the
`CORE` node is pinned at the origin by the layout; clusters at angles `0` and
`π` with equal radius get anchors at exactly opposite positions on the x-axis. -/
theorem anchor_fixity :
    (∀ (cs : List SkillCluster) (scale : ℝ), ∀ c ∈ cs,
        (c.id, (Real.cos c.angle * c.radius * scale,
                Real.sin c.angle * c.radius * scale)) ∈ clusterCenters cs scale)
    ∧ (∀ (nodes : List GalaxyNode), ∀ n ∈ pinCore nodes, n.id = "CORE" →
        n.x = 0 ∧ n.y = 0)
    ∧ (∀ (c₁ c₂ : SkillCluster) (scale : ℝ), c₁.angle = 0 → c₂.angle = Real.pi →
        c₁.radius = c₂.radius →
        clusterAnchor c₁ scale = (c₁.radius * scale, 0)
        ∧ clusterAnchor c₂ scale = (-(c₁.radius * scale), 0)) := by
  refine ⟨?_, ?_, ?_⟩
  · intro cs scale c hc
    exact List.mem_map.mpr ⟨c, hc, rfl⟩
  · intro nodes n hn hid
    unfold pinCore at hn
    obtain ⟨m, _, rfl⟩ := List.mem_map.mp hn
    by_cases hm : m.id = "CORE"
    · rw [if_pos hm]
      exact ⟨rfl, rfl⟩
    · rw [if_neg hm] at hid ⊢
      exact absurd hid hm
  · intro c₁ c₂ scale h1 h2 hr
    unfold clusterAnchor
    rw [h1, h2, ← hr]
    constructor
    · rw [Real.cos_zero, Real.sin_zero, one_mul, zero_mul, zero_mul]
    · rw [Real.cos_pi, Real.sin_pi, zero_mul, zero_mul, neg_one_mul, neg_mul]

/-- C6 witness: two concrete clusters at angles `0` and `π`, radius `300`,
scale `1`: anchors `(300, 0)` and `(-300, 0)`. -/
theorem anchor_fixity_witness :
    clusterAnchor wClusterA 1 = (wClusterA.radius * 1, 0)
    ∧ clusterAnchor wClusterB 1 = (-(wClusterA.radius * 1), 0) :=
  anchor_fixity.2.2 wClusterA wClusterB 1 rfl rfl rfl

/-! ## C1 — edge validity -/

/-- C1.  For any input records, every edge surviving the galaxy view's
valid-edge filter has both endpoints among the ids of the node builder's
output, and any built edge with a missing endpoint is silently dropped by that
filter rather than emitted. -/
theorem edge_validity :
    ∀ (cs : List CourseNode) (ps : List ProjectNode) (xcl : List SkillCluster)
      (alg : Option (List GalaxyNode)) (algE : Option (List ConstellationEdge))
      (sk : List SkillRegistryEntry),
      (∀ e ∈ validEdges (buildEdges cs ps algE) (buildGalaxyNodes cs ps xcl alg sk),
        (∃ n ∈ buildGalaxyNodes cs ps xcl alg sk, n.id = e.source)
        ∧ (∃ n ∈ buildGalaxyNodes cs ps xcl alg sk, n.id = e.target))
      ∧ (∀ e ∈ buildEdges cs ps algE,
          ¬ ((∃ n ∈ buildGalaxyNodes cs ps xcl alg sk, n.id = e.source)
              ∧ (∃ n ∈ buildGalaxyNodes cs ps xcl alg sk, n.id = e.target)) →
          e ∉ validEdges (buildEdges cs ps algE) (buildGalaxyNodes cs ps xcl alg sk)) := by
  intro cs ps xcl alg algE sk
  constructor
  · intro e he
    obtain ⟨-, hcond⟩ := List.mem_filter.mp he
    rw [Bool.and_eq_true] at hcond
    exact ⟨mapHas_iff.mp hcond.1, mapHas_iff.mp hcond.2⟩
  · intro e _ hmiss hemem
    obtain ⟨-, hcond⟩ := List.mem_filter.mp hemem
    rw [Bool.and_eq_true] at hcond
    exact hmiss ⟨mapHas_iff.mp hcond.1, mapHas_iff.mp hcond.2⟩

/-- C1 witness: in the example data the related edge `C1 → P1` survives with
both endpoints present, and the dangling prerequisite edge `GHOST → X` is
dropped. -/
theorem edge_validity_witness :
    (ConstellationEdge.mk "C1" "P1" .related
        ∈ validEdges (buildEdges [exampleCourse, danglingCourse] [exampleProject] none)
          (buildGalaxyNodes [exampleCourse, danglingCourse] [exampleProject] [] none [])
      → (∃ n ∈ buildGalaxyNodes [exampleCourse, danglingCourse] [exampleProject] [] none [],
            n.id = "C1")
        ∧ (∃ n ∈ buildGalaxyNodes [exampleCourse, danglingCourse] [exampleProject] [] none [],
            n.id = "P1"))
    ∧ (ConstellationEdge.mk "GHOST" "X" .prerequisite
        ∉ validEdges (buildEdges [exampleCourse, danglingCourse] [exampleProject] none)
          (buildGalaxyNodes [exampleCourse, danglingCourse] [exampleProject] [] none [])) := by
  constructor
  · exact fun he =>
      (edge_validity [exampleCourse, danglingCourse] [exampleProject] [] none none []).1
        ⟨"C1", "P1", .related⟩ he
  · refine (edge_validity [exampleCourse, danglingCourse] [exampleProject] [] none none []).2
      ⟨"GHOST", "X", .prerequisite⟩ (by decide) ?_
    intro hcontra
    exact absurd hcontra.1 (by decide)

/-! ## C3 — overclock targets -/

/-- Algorithm-topic nodes are never project-like. -/
theorem projectLike_algoTopicNode (tagStats : List (String × Nat)) (topic : AlgoTopicDef) :
    projectLike (algoTopicNode tagStats topic).nodeType = false := by
  show projectLike
    (if masteryToStarClass (min 1 ((computeSolvedCount tagStats topic.tagSlugs : ℚ)
        / topic.estimatedTotal)) = StarClass.ghost
     then NodeType.dark else NodeType.course) = false
  split
  · rfl
  · rfl

/-- Unfolding equation of `collectUpstreamSkills` when the node is found. -/
theorem collectUpstreamSkills_eq_some {nodeMap : List GalaxyNode} {nodeId : String}
    {n : GalaxyNode} (heq : mapGet nodeMap nodeId = some n) :
    collectUpstreamSkills nodeMap nodeId
      = if ¬ projectLike n.nodeType ∧ ¬ n.isStarGate.getD false then []
        else
          ((n.relatedCourses.getD []).flatMap (fun cid =>
              cid :: (match mapGet nodeMap cid with
                      | some cNode => cNode.prerequisites.getD []
                      | none => [])))
            ++ n.prerequisites.getD [] := by
  unfold collectUpstreamSkills
  rw [heq]

/-- C3.  `collectOverclockTargets` (`collectUpstreamSkills`): a missing or
non-project-like, non-star-gate node yields the empty set; a project-like or
star-gate node with no own prerequisite list (as all project-built nodes are)
yields exactly its direct related-course ids plus those courses' own direct
prerequisites — one extra hop, no deeper; and in a galaxy whose course records
carry no node-type override, every project-like or star-gate node indeed has no
own prerequisite list. -/
theorem overclock_targets :
    (∀ (nodeMap : List GalaxyNode) (nodeId : String),
      (mapGet nodeMap nodeId = none → collectUpstreamSkills nodeMap nodeId = [])
      ∧ ∀ n, mapGet nodeMap nodeId = some n →
          (¬ (projectLike n.nodeType = true ∨ n.isStarGate.getD false = true) →
            collectUpstreamSkills nodeMap nodeId = [])
          ∧ ((projectLike n.nodeType = true ∨ n.isStarGate.getD false = true) →
              n.prerequisites = none →
              ∀ x, x ∈ collectUpstreamSkills nodeMap nodeId ↔
                (x ∈ n.relatedCourses.getD []
                 ∨ ∃ cid ∈ n.relatedCourses.getD [], ∃ cN,
                     mapGet nodeMap cid = some cN ∧ x ∈ cN.prerequisites.getD [])))
    ∧ (∀ (cs : List CourseNode) (ps : List ProjectNode) (xcl : List SkillCluster)
        (tagStats : List (String × Nat)) (sk : List SkillRegistryEntry),
        (∀ c ∈ cs, c.nodeType = none) →
        ∀ n ∈ buildGalaxyNodes cs ps xcl (some (buildAlgorithmNodes tagStats).1) sk,
          (projectLike n.nodeType = true ∨ n.isStarGate.getD false = true) →
          n.prerequisites = none) := by
  constructor
  · intro nodeMap nodeId
    constructor
    · intro hnone
      unfold collectUpstreamSkills
      rw [hnone]
    · intro n heq
      constructor
      · intro hnot
        rw [collectUpstreamSkills_eq_some heq]
        push_neg at hnot
        exact if_pos ⟨hnot.1, hnot.2⟩
      · intro hp hpre x
        rw [collectUpstreamSkills_eq_some heq,
          if_neg (fun hc => hp.elim hc.1 hc.2), hpre]
        rw [show (Option.getD (none : Option (List String)) []) = [] from rfl,
          List.append_nil]
        constructor
        · intro hx
          obtain ⟨cid, hcid, hxc⟩ := List.mem_flatMap.mp hx
          rcases List.mem_cons.mp hxc with rfl | hxr
          · exact Or.inl hcid
          · rcases hm : mapGet nodeMap cid with _ | cN
            · rw [hm] at hxr
              exact absurd hxr (List.not_mem_nil x)
            · rw [hm] at hxr
              exact Or.inr ⟨cid, hcid, cN, hm, hxr⟩
        · intro hx
          rcases hx with hx | ⟨cid, hcid, cN, hm, hxp⟩
          · exact List.mem_flatMap.mpr ⟨x, hx, List.mem_cons_self _ _⟩
          · refine List.mem_flatMap.mpr ⟨cid, hcid, List.mem_cons_of_mem _ ?_⟩
            rw [hm]
            exact hxp
  · intro cs ps xcl tagStats sk hcs n hn hp
    unfold buildGalaxyNodes at hn
    rcases List.mem_cons.mp hn with rfl | hn'
    · exfalso
      rcases hp with h | h
      · exact absurd h (by decide)
      · exact absurd h (by simp [coreNode])
    · rcases List.mem_append.mp hn' with hn2 | hskill
      · rcases List.mem_append.mp hn2 with hn3 | halgo
        · rcases List.mem_append.mp hn3 with hn4 | hdark
          · rcases List.mem_append.mp hn4 with hcourse | hproj
            · obtain ⟨c, hc, rfl⟩ := List.mem_map.mp hcourse
              exfalso
              rcases hp with h | h
              · rw [show (courseToNode c).nodeType = c.nodeType.getD .course from rfl,
                  hcs c hc] at h
                exact absurd h (by decide)
              · exact absurd h (by simp [courseToNode])
            · obtain ⟨p, _, rfl⟩ := List.mem_map.mp hproj
              rfl
          · obtain ⟨cl, -, hds⟩ := List.mem_flatMap.mp hdark
            obtain ⟨ds, -, rfl⟩ := List.mem_map.mp hds
            rfl
        · have halgo' := halgo
          rw [show (some (buildAlgorithmNodes tagStats).1).getD []
              = ALGO_TOPICS.map (algoTopicNode tagStats) from rfl] at halgo'
          obtain ⟨topic, -, rfl⟩ := List.mem_map.mp halgo'
          exfalso
          rcases hp with h | h
          · rw [projectLike_algoTopicNode] at h
            exact absurd h (by decide)
          · exact absurd h (by simp [show (algoTopicNode tagStats topic).isStarGate
              = none from rfl])
      · unfold buildSkillNodes at hskill
        split at hskill
        · exact absurd hskill (List.not_mem_nil n)
        · obtain ⟨s, -, rfl⟩ := List.mem_map.mp hskill
          exfalso
          rcases hp with h | h
          · simp [projectLike] at h
          · simp at h

/-- C3 witness: in the example galaxy, project `P1` (related to `C1`, which has
no prerequisites) overclocks exactly to `{C1}`: `C1` is a target and the
one-hop closure adds nothing. -/
theorem overclock_targets_witness :
    ("C1" ∈ collectUpstreamSkills exampleGalaxy "P1"
      ↔ ("C1" ∈ (projectToNode exampleProject).relatedCourses.getD []
          ∨ ∃ cid ∈ (projectToNode exampleProject).relatedCourses.getD [], ∃ cN,
              mapGet exampleGalaxy cid = some cN ∧ "C1" ∈ cN.prerequisites.getD []))
    ∧ "C1" ∈ collectUpstreamSkills exampleGalaxy "P1" := by
  have h := ((overclock_targets.1 exampleGalaxy "P1").2 (projectToNode exampleProject)
    rfl).2 (Or.inl rfl) rfl "C1"
  exact ⟨h, h.mpr (Or.inl (by decide))⟩

/-! ## C2 — chain symmetry -/

/-- A course prerequisite gives a downstream step back to the course. -/
theorem view_course_step {cs : List CourseNode} {ps : List ProjectNode}
    {algoE : List ConstellationEdge} {c : CourseNode} (hc : c ∈ cs) {b : String}
    (hb : b ∈ c.prerequisites.getD []) :
    c.id ∈ downstreamSuccsView cs ps algoE b := by
  unfold downstreamSuccsView downstreamSuccs
  refine List.mem_append.mpr (Or.inl (List.mem_append.mpr (Or.inl ?_)))
  exact List.mem_map.mpr ⟨c, List.mem_filter.mpr ⟨hc, decide_eq_true hb⟩, rfl⟩

/-- A project related-course gives a downstream step back to the project. -/
theorem view_project_step {cs : List CourseNode} {ps : List ProjectNode}
    {algoE : List ConstellationEdge} {p : ProjectNode} (hp : p ∈ ps) {b : String}
    (hb : b ∈ p.relatedCourses) :
    p.id ∈ downstreamSuccsView cs ps algoE b := by
  unfold downstreamSuccsView downstreamSuccs
  refine List.mem_append.mpr (Or.inl (List.mem_append.mpr (Or.inr ?_)))
  exact List.mem_map.mpr ⟨p, List.mem_filter.mpr ⟨hp, decide_eq_true hb⟩, rfl⟩

/-- An algorithm edge gives a downstream step from its source to its target. -/
theorem view_edge_step {cs : List CourseNode} {ps : List ProjectNode}
    {algoE : List ConstellationEdge} {e : ConstellationEdge} (he : e ∈ algoE) :
    e.target ∈ downstreamSuccsView cs ps algoE e.source := by
  unfold downstreamSuccsView
  refine List.mem_append.mpr (Or.inr ?_)
  exact List.mem_map.mpr ⟨e, List.mem_filter.mpr ⟨he, decide_eq_true rfl⟩, rfl⟩

/-- Every upstream step taken by `collectPrereqChain` over a galaxy built by
`buildGalaxyNodes` (with algorithm nodes from `buildAlgorithmNodes`) is the
reverse of a downstream step of the galaxy view's `collectDownstreamChain`:
course nodes carry exactly their record's prerequisites, project nodes exactly
their record's related courses, algorithm nodes exactly their topic's
prerequisites (each of which is also emitted as an algorithm edge), and no
other node kind carries prerequisites or related courses. -/
theorem buildGalaxy_lifts (cs : List CourseNode) (ps : List ProjectNode)
    (xcl : List SkillCluster) (sk : List SkillRegistryEntry)
    (tagStats : List (String × Nat)) :
    ∀ a b, b ∈ prereqSuccs (buildGalaxyNodes cs ps xcl
        (some (buildAlgorithmNodes tagStats).1) sk) a →
      a ∈ downstreamSuccsView cs ps (buildAlgorithmNodes tagStats).2 b := by
  intro a b hb
  unfold prereqSuccs at hb
  split at hb
  · exact absurd hb (List.not_mem_nil b)
  · next node heq =>
    obtain ⟨hmem, hid⟩ := mapGet_mem heq
    subst hid
    unfold buildGalaxyNodes at hmem
    rcases List.mem_cons.mp hmem with rfl | hmem'
    · exact absurd hb (by simp [coreNode])
    · rcases List.mem_append.mp hmem' with hmem2 | hskill
      · rcases List.mem_append.mp hmem2 with hmem3 | halgo
        · rcases List.mem_append.mp hmem3 with hmem4 | hdark
          · rcases List.mem_append.mp hmem4 with hcourse | hproj
            · obtain ⟨c, hc, rfl⟩ := List.mem_map.mp hcourse
              have hb' : b ∈ c.prerequisites.getD [] := by
                rw [show (courseToNode c).prerequisites = c.prerequisites from rfl,
                  show (courseToNode c).relatedCourses = none from rfl] at hb
                simpa using hb
              exact view_course_step hc hb'
            · obtain ⟨p, hp, rfl⟩ := List.mem_map.mp hproj
              have hb' : b ∈ p.relatedCourses := by
                rw [show (projectToNode p).prerequisites = none from rfl,
                  show (projectToNode p).relatedCourses = some p.relatedCourses from rfl] at hb
                simpa using hb
              exact view_project_step hp hb'
          · obtain ⟨cl, -, hds⟩ := List.mem_flatMap.mp hdark
            obtain ⟨ds, -, rfl⟩ := List.mem_map.mp hds
            exact absurd hb (by simp [darkStarNode])
        · rw [show (some (buildAlgorithmNodes tagStats).1).getD []
              = ALGO_TOPICS.map (algoTopicNode tagStats) from rfl] at halgo
          obtain ⟨topic, htopic, rfl⟩ := List.mem_map.mp halgo
          have hb' : b ∈ topic.prerequisites := by
            rw [show (algoTopicNode tagStats topic).relatedCourses = none from rfl,
              show (algoTopicNode tagStats topic).prerequisites
                = (if 0 < topic.prerequisites.length then some topic.prerequisites else none)
                from rfl] at hb
            simp only [Option.getD_none, List.append_nil] at hb
            split at hb
            · simpa using hb
            · exact absurd hb (List.not_mem_nil b)
          have hedge : (⟨b, topic.id, .prerequisite⟩ : ConstellationEdge)
              ∈ (buildAlgorithmNodes tagStats).2 := by
            rw [show (buildAlgorithmNodes tagStats).2
                = ALGO_TOPICS.flatMap (fun t => t.prerequisites.map
                    (fun preId => (⟨preId, t.id, .prerequisite⟩ : ConstellationEdge)))
                from rfl]
            exact List.mem_flatMap.mpr ⟨topic, htopic, List.mem_map.mpr ⟨b, hb', rfl⟩⟩
          exact view_edge_step hedge
      · unfold buildSkillNodes at hskill
        split at hskill
        · exact absurd hskill (List.not_mem_nil node)
        · obtain ⟨s, -, rfl⟩ := List.mem_map.mp hskill
          exact absurd hb (by simp)

/-- C2 counterexample: in the concrete galaxy (external datasets empty) the
algorithm topic `algo-divide-conquer` is in the upstream chain of `algo-dp`,
but `algo-dp` is NOT in the downstream chain that the reusable
GalaxyInteraction module computes from `algo-divide-conquer` — that module
scans only course and project records and never follows algorithm edges, so
the claimed symmetry fails on algorithm-topic nodes.  (The recursion budgets
shown exceed the stabilization bound, so they represent the unbounded source
recursion.) -/
theorem chain_symmetry_cex :
    dfsMeasure (prereqUniv (concreteGalaxy [] [])) "algo-dp" [] < 60
    ∧ dfsMeasure (downstreamUniv courses projectNodes) "algo-divide-conquer" [] < 60
    ∧ "algo-divide-conquer" ∈ collectPrereqChain (concreteGalaxy [] []) 60 "algo-dp" []
    ∧ "algo-dp" ∉ collectDownstreamChain courses projectNodes 60 "algo-divide-conquer" [] :=
  ⟨by decide, by decide, by decide, by decide⟩

/-- C2 (amended).  Chain symmetry holds between `collectPrereqChain` and the
GALAXY VIEW's `collectDownstreamChain` (which also follows algorithm
prerequisite edges): over any galaxy built by `buildGalaxyNodes` from course,
project and algorithm data, if `B` is in the upstream chain of `A`, then `A`
is in the view's downstream chain of `B`.  (The module's downstream chain,
which ignores algorithm edges, satisfies this only away from algorithm-topic
nodes — see the counterexample.) -/
theorem chain_symmetry (cs : List CourseNode) (ps : List ProjectNode)
    (xcl : List SkillCluster) (sk : List SkillRegistryEntry)
    (tagStats : List (String × Nat)) (A B : String) (fuel₁ fuel₂ : Nat)
    (h₁ : dfsMeasure (prereqUniv (buildGalaxyNodes cs ps xcl
        (some (buildAlgorithmNodes tagStats).1) sk)) A [] < fuel₁)
    (h₂ : dfsMeasure (downstreamUnivView cs ps (buildAlgorithmNodes tagStats).2) B []
        < fuel₂)
    (hup : B ∈ collectPrereqChain (buildGalaxyNodes cs ps xcl
        (some (buildAlgorithmNodes tagStats).1) sk) fuel₁ A []) :
    A ∈ collectDownstreamChainView cs ps (buildAlgorithmNodes tagStats).2 fuel₂ B [] := by
  have hreach : Reach (prereqSuccs (buildGalaxyNodes cs ps xcl
      (some (buildAlgorithmNodes tagStats).1) sk)) A B :=
    (dfsF_mem_iff _ _ (prereqSuccs_mem_univ _) fuel₁ A B h₁).mp hup
  have hrev := reach_rev (buildGalaxy_lifts cs ps xcl sk tagStats) hreach
  exact (dfsF_mem_iff _ _ (downstreamSuccsView_mem_univ cs ps _) fuel₂ B A h₂).mpr hrev

/-- C2 witness: the amended symmetry at the repository's own data —
`algo-divide-conquer ∈ upstream(algo-dp)` and, through the view's downstream
chain, `algo-dp ∈ downstream(algo-divide-conquer)`. -/
theorem chain_symmetry_witness :
    dfsMeasure (prereqUniv (concreteGalaxy [] [])) "algo-dp" [] < 60
    ∧ dfsMeasure (downstreamUnivView courses projectNodes (buildAlgorithmNodes []).2)
        "algo-divide-conquer" [] < 100
    ∧ "algo-divide-conquer" ∈ collectPrereqChain (concreteGalaxy [] []) 60 "algo-dp" []
    ∧ "algo-dp" ∈ collectDownstreamChainView courses projectNodes
        (buildAlgorithmNodes []).2 100 "algo-divide-conquer" [] :=
  ⟨by decide, by decide, by decide,
   chain_symmetry courses projectNodes clusters [] [] "algo-dp" "algo-divide-conquer"
     60 100 (by decide) (by decide) (by decide)⟩

/-! ## C8 — traversal termination -/

/-- C8.  The chain traversals terminate on every finite graph, cycles
included: every call either returns on a visited id or strictly shrinks the
set of unvisited ids of the finite reference universe, so once the recursion
budget exceeds that set's size the computed chain is independent of the
budget — for `collectPrereqChain` and for both `collectDownstreamChain`
variants. -/
theorem chain_termination :
    (∀ (nodeMap : List GalaxyNode) (s : String) (v : List String) (fuel₁ fuel₂ : Nat),
        dfsMeasure (prereqUniv nodeMap) s v < fuel₁ →
        dfsMeasure (prereqUniv nodeMap) s v < fuel₂ →
        collectPrereqChain nodeMap fuel₁ s v = collectPrereqChain nodeMap fuel₂ s v)
    ∧ (∀ (cs : List CourseNode) (ps : List ProjectNode) (s : String) (v : List String)
        (fuel₁ fuel₂ : Nat),
        dfsMeasure (downstreamUniv cs ps) s v < fuel₁ →
        dfsMeasure (downstreamUniv cs ps) s v < fuel₂ →
        collectDownstreamChain cs ps fuel₁ s v = collectDownstreamChain cs ps fuel₂ s v)
    ∧ (∀ (cs : List CourseNode) (ps : List ProjectNode) (algoE : List ConstellationEdge)
        (s : String) (v : List String) (fuel₁ fuel₂ : Nat),
        dfsMeasure (downstreamUnivView cs ps algoE) s v < fuel₁ →
        dfsMeasure (downstreamUnivView cs ps algoE) s v < fuel₂ →
        collectDownstreamChainView cs ps algoE fuel₁ s v
          = collectDownstreamChainView cs ps algoE fuel₂ s v) := by
  refine ⟨?_, ?_, ?_⟩
  · intro nodeMap s v fuel₁ fuel₂ h1 h2
    exact dfsF_stable _ _ (prereqSuccs_mem_univ nodeMap) _ fuel₁ fuel₂ s v le_rfl h1 h2
  · intro cs ps s v fuel₁ fuel₂ h1 h2
    exact dfsF_stable _ _ (downstreamSuccs_mem_univ cs ps) _ fuel₁ fuel₂ s v le_rfl h1 h2
  · intro cs ps algoE s v fuel₁ fuel₂ h1 h2
    exact dfsF_stable _ _ (downstreamSuccsView_mem_univ cs ps algoE) _ fuel₁ fuel₂ s v
      le_rfl h1 h2

/-- C8 witness: on the example galaxy the prerequisite chain of `P1` is the
same under budgets `4` and `9`, both beyond the stabilization bound. -/
theorem chain_termination_witness :
    dfsMeasure (prereqUniv exampleGalaxy) "P1" [] < 4
    ∧ dfsMeasure (prereqUniv exampleGalaxy) "P1" [] < 9
    ∧ collectPrereqChain exampleGalaxy 4 "P1" [] = collectPrereqChain exampleGalaxy 9 "P1" [] :=
  ⟨by decide, by decide,
   chain_termination.1 exampleGalaxy "P1" [] 4 9 (by decide) (by decide)⟩

/-! ## C10 — the two downstream implementations -/

/-- With no algorithm edges the two downstream successor functions coincide. -/
theorem downstreamSuccsView_nil (cs : List CourseNode) (ps : List ProjectNode) :
    downstreamSuccsView cs ps [] = downstreamSuccs cs ps := by
  funext a
  unfold downstreamSuccsView
  simp

/-- C10 counterexample: on the repository's own data the two
`collectDownstreamChain` implementations disagree at `algo-divide-conquer`:
the galaxy view's chain contains `algo-dp` (via the algorithm prerequisite
edge), the GalaxyInteraction module's chain does not. -/
theorem downstream_equiv_cex :
    dfsMeasure (downstreamUnivView courses projectNodes (buildAlgorithmNodes []).2)
        "algo-divide-conquer" [] < 100
    ∧ dfsMeasure (downstreamUniv courses projectNodes) "algo-divide-conquer" [] < 100
    ∧ "algo-dp" ∈ collectDownstreamChainView courses projectNodes
        (buildAlgorithmNodes []).2 100 "algo-divide-conquer" []
    ∧ "algo-dp" ∉ collectDownstreamChain courses projectNodes 100 "algo-divide-conquer" [] :=
  ⟨by decide, by decide, by decide, by decide⟩

/-- C10 (amended).  The module's downstream chain refines the view's: the two
implementations coincide whenever the algorithm-edge data is empty, and in
general every id in the module's chain is also in the view's chain (the view
additionally follows algorithm prerequisite edges). -/
theorem downstream_refinement :
    (∀ (cs : List CourseNode) (ps : List ProjectNode) (fuel : Nat) (s : String)
        (v : List String),
        collectDownstreamChainView cs ps [] fuel s v = collectDownstreamChain cs ps fuel s v)
    ∧ (∀ (cs : List CourseNode) (ps : List ProjectNode) (algoE : List ConstellationEdge)
        (s x : String) (fuel₁ fuel₂ : Nat),
        dfsMeasure (downstreamUniv cs ps) s [] < fuel₁ →
        dfsMeasure (downstreamUnivView cs ps algoE) s [] < fuel₂ →
        x ∈ collectDownstreamChain cs ps fuel₁ s [] →
        x ∈ collectDownstreamChainView cs ps algoE fuel₂ s []) := by
  constructor
  · intro cs ps fuel s v
    unfold collectDownstreamChainView collectDownstreamChain
    rw [downstreamSuccsView_nil]
  · intro cs ps algoE s x fuel₁ fuel₂ h1 h2 hx
    have hreach : Reach (downstreamSuccs cs ps) s x :=
      (dfsF_mem_iff _ _ (downstreamSuccs_mem_univ cs ps) fuel₁ s x h1).mp hx
    have hreach' : Reach (downstreamSuccsView cs ps algoE) s x :=
      reach_mono (fun a => by
        unfold downstreamSuccsView
        exact List.subset_append_left _ _) hreach
    exact (dfsF_mem_iff _ _ (downstreamSuccsView_mem_univ cs ps algoE) fuel₂ s x h2).mpr
      hreach'

/-- C10 witness: the refinement on a one-edge graph — the module's singleton
chain from `a` is contained in the view's chain. -/
theorem downstream_refinement_witness :
    dfsMeasure (downstreamUniv [] []) "a" [] < 3
    ∧ dfsMeasure (downstreamUnivView [] [] [⟨"a", "b", .prerequisite⟩]) "a" [] < 4
    ∧ "a" ∈ collectDownstreamChain [] [] 3 "a" []
    ∧ "a" ∈ collectDownstreamChainView [] [] [⟨"a", "b", .prerequisite⟩] 4 "a" [] :=
  ⟨by decide, by decide, by decide,
   downstream_refinement.2 [] [] [⟨"a", "b", .prerequisite⟩] "a" "a" 3 4
     (by decide) (by decide) (by decide)⟩

end Galaxy
